import Mathlib

/-!
# whatsup chat server: registry and dispatch

A shallow embedding of `server/server.go` and of `getUserInput` in
`client/client.go`.

* A Go `map[K]V` is a finite association list with pairwise distinct keys
  (`GoMap`).  Lookup, assignment and `delete` are the three map operations the
  server uses.
* Every method of `currentConns` holds the mutex for its whole body, so a call
  is one atomic transition: it takes the registry and returns the new registry
  together with the messages handed to `whatsup.SendMsg`, in order.
* Go strings are modelled by Lean strings.
* `whatsup.MSG_DELIM` is declared in the imported `whatsup` package; every
  definition that reads it takes it as the parameter `MSG_DELIM`.
* The order in which `range` visits the keys of a map is unspecified in Go; the
  visiting order is the parameter `order` of `listUsers`.
* `handleConnection` runs on the list of results its `whatsup.RecvMsg` calls
  return, and `getUserInput` on the contents of stdin, from which `readLines`
  takes the lines its `ReadString` calls return; both record what they send,
  print and call.
-/

namespace Whatsup

/-! ## Go maps -/

/-- Entries of a map whose key differs from `k`. -/
def eraseEntries {K V : Type} [DecidableEq K] (k : K) (l : List (K × V)) : List (K × V) :=
  l.filter (fun e => decide (e.1 ≠ k))

/-- Value stored under `k`, if any. -/
def lookupEntries {K V : Type} [DecidableEq K] (k : K) : List (K × V) → Option V
  | [] => none
  | e :: rest => if e.1 = k then some e.2 else lookupEntries k rest

/-- A Go map: finitely many entries, no key twice. -/
structure GoMap (K V : Type) [DecidableEq K] where
  entries : List (K × V)
  nodup : (entries.map Prod.fst).Nodup

namespace GoMap

variable {K V : Type} [DecidableEq K]

/-- The map made by `make(map[K]V)`. -/
def empty : GoMap K V := ⟨[], List.nodup_nil⟩

/-- Comma-ok lookup `v, ok := m[k]`: `some v` when `ok`, `none` otherwise. -/
def get? (m : GoMap K V) (k : K) : Option V := lookupEntries k m.entries

/-- The `ok` of `_, ok := m[k]`. -/
def contains (m : GoMap K V) (k : K) : Bool := (m.get? k).isSome

/-- Assignment `m[k] = v`. -/
def set (m : GoMap K V) (k : K) (v : V) : GoMap K V :=
  ⟨(k, v) :: eraseEntries k m.entries, by
    rw [List.map_cons, List.nodup_cons]
    refine ⟨?_, ((List.filter_sublist m.entries).map Prod.fst).nodup m.nodup⟩
    simp [eraseEntries]⟩

/-- Builtin `delete(m, k)`. -/
def delete (m : GoMap K V) (k : K) : GoMap K V :=
  ⟨eraseEntries k m.entries, ((List.filter_sublist m.entries).map Prod.fst).nodup m.nodup⟩

/-- The keys of the map. -/
def keys (m : GoMap K V) : List K := m.entries.map Prod.fst

end GoMap

/-! ## The `whatsup` protocol types -/

/-- Modelled from the spec: the connection handle `whatsup.ChatConn`, whose
declaration is in the imported `whatsup` package.  It is "an opaque identifier
for one live transport endpoint; compared by identity", so a handle is its
identity. -/
structure ChatConn where
  id : Nat
  deriving DecidableEq, Repr

/-- Modelled from the spec: the message kind, declared in the imported
`whatsup` package: "one of CONNECT, SEND, LIST, DISCONNECT, ERROR", where SEND
is the constant the code calls `MSG`.  `other` stands for any value on the
wire that is none of the five constants. -/
inductive Purpose where
  | CONNECT
  | MSG
  | LIST
  | ERROR
  | DISCONNECT
  | other (code : Nat)
  deriving DecidableEq, Repr

/-- The record `whatsup.WhatsUpMsg`, with the three fields the server uses. -/
structure WhatsUpMsg where
  Action : Purpose
  Body : String
  Username : String
  deriving DecidableEq, Repr

/-- One call of `whatsup.SendMsg(conn, msg)`. -/
abbrev Sent := ChatConn × WhatsUpMsg

/-! ## Go string functions -/

/-- Go `strings.Contains(s, substr)`. -/
def stringsContains (s substr : String) : Bool :=
  s.data.tails.any (fun t => substr.data.isPrefixOf t)

/-- Go `strings.Join(elems, sep)`. -/
def stringsJoin (elems : List String) (sep : String) : String :=
  String.mk (List.intercalate sep.data (elems.map String.data))

/-! ## server.go -/

/-- The struct `currentConns`: registered users and their connections. -/
structure currentConns where
  users : GoMap String ChatConn
  conns : GoMap ChatConn String

/-- The registry built in `Start`: both maps empty. -/
def currentConns.init : currentConns := ⟨GoMap.empty, GoMap.empty⟩

/-- Go `serverErrorMsg`. -/
def serverErrorMsg (errString : String) : WhatsUpMsg :=
  { Action := Purpose.ERROR, Body := errString, Username := "SERVER" }

/-- Go `usernameValid`. -/
def usernameValid (MSG_DELIM : String) (username : String) : Bool :=
  !stringsContains username MSG_DELIM

/-- Go `currentConns.register`. -/
def register (MSG_DELIM : String) (currConns : currentConns) (conn : ChatConn)
    (username : String) : currentConns × List Sent :=
  if currConns.conns.contains conn then
    (currConns, [(conn, serverErrorMsg "Connection already registered with user")])
  else if !usernameValid MSG_DELIM username then
    (currConns, [(conn, serverErrorMsg "Username not valid")])
  else if currConns.users.contains username then
    (currConns, [(conn, serverErrorMsg "Username already taken")])
  else
    ({ users := currConns.users.set username conn,
       conns := currConns.conns.set conn username }, [])

/-- Go `currentConns.deregister`.  `username, _ := conns[conn]` yields the zero
value `""` when `conn` is not a key. -/
def deregister (currConns : currentConns) (conn : ChatConn) : currentConns × List Sent :=
  let username := (currConns.conns.get? conn).getD ""
  ({ users := currConns.users.delete username,
     conns := currConns.conns.delete conn }, [])

/-- Go `currentConns.sendUserMsg`. -/
def sendUserMsg (currConns : currentConns) (msg : WhatsUpMsg) (senderConn : ChatConn) :
    currentConns × List Sent :=
  match currConns.users.get? msg.Username with
  | none => (currConns, [(senderConn, serverErrorMsg "Unable to find requested user")])
  | some userConn =>
    let senderName := (currConns.conns.get? senderConn).getD ""
    (currConns, [(userConn, { msg with Username := senderName })])

/-- Go `currentConns.listUsers`; `order` is the order in which
`for user := range currConns.users` visits the keys. -/
def listUsers (currConns : currentConns) (order : List String) (senderConn : ChatConn) :
    currentConns × List Sent :=
  let usersStr := stringsJoin order "\n"
  (currConns, [(senderConn, { Action := Purpose.LIST, Body := usersStr, Username := "SERVER" })])

/-- Go `handleMsg`: the new registry, the messages sent, and `connClosed`. -/
def handleMsg (MSG_DELIM : String) (order : List String) (receivedMsg : WhatsUpMsg)
    (senderConn : ChatConn) (currConns : currentConns) : currentConns × List Sent × Bool :=
  match receivedMsg.Action with
  | Purpose.CONNECT =>
    let r := register MSG_DELIM currConns senderConn receivedMsg.Username
    (r.1, r.2, false)
  | Purpose.MSG =>
    let r := sendUserMsg currConns receivedMsg senderConn
    (r.1, r.2, false)
  | Purpose.LIST =>
    let r := listUsers currConns order senderConn
    (r.1, r.2, false)
  | Purpose.DISCONNECT =>
    let r := deregister currConns senderConn
    (r.1, r.2, true)
  | _ => (currConns, [(senderConn, serverErrorMsg "Invalid request type")], false)

/-! ## Traces of calls -/

/-- One call of a registry method, with its arguments. -/
inductive RegistryCall where
  | register (conn : ChatConn) (username : String)
  | deregister (conn : ChatConn)
  | sendUserMsg (msg : WhatsUpMsg) (senderConn : ChatConn)
  | listUsers (order : List String) (senderConn : ChatConn)

/-- Perform one registry call. -/
def applyCall (MSG_DELIM : String) (s : currentConns) : RegistryCall → currentConns × List Sent
  | RegistryCall.register conn username => register MSG_DELIM s conn username
  | RegistryCall.deregister conn => deregister s conn
  | RegistryCall.sendUserMsg msg senderConn => sendUserMsg s msg senderConn
  | RegistryCall.listUsers order senderConn => listUsers s order senderConn

/-- The registry after a sequence of calls, performed one after the other. -/
def runCalls (MSG_DELIM : String) (s : currentConns) (calls : List RegistryCall) : currentConns :=
  calls.foldl (fun st call => (applyCall MSG_DELIM st call).1) s

/-- One request handed to `handleMsg`: the source connection, the message, and
the key order a `LIST` would see. -/
structure Request where
  conn : ChatConn
  msg : WhatsUpMsg
  order : List String

/-- The registry after a sequence of requests, each handled by `handleMsg`. -/
def handleRequests (MSG_DELIM : String) (s : currentConns) (reqs : List Request) : currentConns :=
  reqs.foldl (fun st r => (handleMsg MSG_DELIM r.order r.msg r.conn st).1) s

/-! ## Properties named by the specification -/

/-- The two maps are exact inverses: `users[n] = c` iff `conns[c] = n`. -/
def Inverses (s : currentConns) : Prop :=
  ∀ (n : String) (c : ChatConn), s.users.get? n = some c ↔ s.conns.get? c = some n

/-- No two distinct connections are registered under the same name in `conns`. -/
def UniqueNames (s : currentConns) : Prop :=
  ∀ (c₁ c₂ : ChatConn) (n : String),
    s.conns.get? c₁ = some n → s.conns.get? c₂ = some n → c₁ = c₂

/-- The body of a `LIST` reply read line by line: split on newline. -/
def bodyLines (body : String) : List String :=
  (body.data.splitOn (Char.ofNat 10)).map String.mk

/-- The run `calls`, started in `s`, never registers the empty name: every
`register(c, "")` of the sequence, made in the registry the run has reached by
then, is answered with an error. -/
def NeverRegistersEmptyName (MSG_DELIM : String) (s : currentConns)
    (calls : List RegistryCall) : Prop :=
  ∀ (pre post : List RegistryCall) (c : ChatConn),
    calls = pre ++ RegistryCall.register c "" :: post →
    (register MSG_DELIM (runCalls MSG_DELIM s pre) c "").2 ≠ []

/-! ## handleConnection -/

/-- What `whatsup.RecvMsg` returns: a message, or an error with its text
(`"EOF"` at end of stream). -/
inductive RecvResult where
  | ok (receivedMsg : WhatsUpMsg)
  | error (text : String)

/-- Effect of one pass through the `switch` of `handleConnection`: the new
registry, the messages sent, the registry methods called, and whether the
function returns. -/
structure SwitchResult where
  registry : currentConns
  sent : List Sent
  calls : List RegistryCall
  returned : Bool

/-- The `switch receivedMsg.Action` of `handleConnection`. -/
def handleConnectionSwitch (MSG_DELIM : String) (order : List String)
    (receivedMsg : WhatsUpMsg) (thisConn : ChatConn) (currConns : currentConns) :
    SwitchResult :=
  match receivedMsg.Action with
  | Purpose.CONNECT =>
    let r := register MSG_DELIM currConns thisConn receivedMsg.Username
    ⟨r.1, r.2, [RegistryCall.register thisConn receivedMsg.Username], false⟩
  | Purpose.MSG =>
    let r := sendUserMsg currConns receivedMsg thisConn
    ⟨r.1, r.2, [RegistryCall.sendUserMsg receivedMsg thisConn], false⟩
  | Purpose.LIST =>
    let r := listUsers currConns order thisConn
    ⟨r.1, r.2, [RegistryCall.listUsers order thisConn], false⟩
  | Purpose.DISCONNECT =>
    let r := deregister currConns thisConn
    ⟨r.1, r.2, [RegistryCall.deregister thisConn], true⟩
  | _ => ⟨currConns, [(thisConn, serverErrorMsg "Unknown request action")], [], false⟩

/-- Outcome of a session: the registry, the messages sent, the lines printed,
the registry methods called (in order), whether `handleConnection` returned,
and the receive results it never read. -/
structure SessionResult where
  registry : currentConns
  sent : List Sent
  printed : List String
  calls : List RegistryCall
  returned : Bool
  unread : List (RecvResult × List String)

/-- Go `handleConnection`, run on the successive results of `whatsup.RecvMsg`;
each result comes with the key order a LIST would see.  When the results run
out the loop is waiting in `RecvMsg` and has not returned. -/
def handleConnection (MSG_DELIM : String) (thisConn : ChatConn) :
    List (RecvResult × List String) → currentConns → SessionResult
  | [], currConns => ⟨currConns, [], [], [], false, []⟩
  | (RecvResult.error text, _) :: rest, currConns =>
    let r := deregister currConns thisConn
    ⟨r.1, r.2,
      if text ≠ "EOF" then ["Error receiving message: " ++ text ++ "\n"] else [],
      [RegistryCall.deregister thisConn], true, rest⟩
  | (RecvResult.ok receivedMsg, order) :: rest, currConns =>
    let sw := handleConnectionSwitch MSG_DELIM order receivedMsg thisConn currConns
    if sw.returned then
      ⟨sw.registry, sw.sent, [], sw.calls, true, rest⟩
    else
      let r := handleConnection MSG_DELIM thisConn rest sw.registry
      ⟨r.registry, sw.sent ++ r.sent, r.printed, sw.calls ++ r.calls, r.returned, r.unread⟩

/-- A receive result that ends the session: DISCONNECT, end of stream, or a
transport error. -/
def isTerminator : RecvResult → Bool
  | RecvResult.error _ => true
  | RecvResult.ok receivedMsg => decide (receivedMsg.Action = Purpose.DISCONNECT)

/-- The connections for which `deregister` was called, in call order. -/
def deregisterCalls : List RegistryCall → List ChatConn
  | [] => []
  | RegistryCall.deregister conn :: rest => conn :: deregisterCalls rest
  | _ :: rest => deregisterCalls rest

/-! ## client.go -/

/-- Go `unicode.IsSpace`. -/
def unicodeIsSpace (c : Char) : Bool :=
  decide ((9 ≤ c.toNat ∧ c.toNat ≤ 13) ∨ c.toNat = 32 ∨ c.toNat = 133 ∨ c.toNat = 160 ∨
    c.toNat = 5760 ∨ (8192 ≤ c.toNat ∧ c.toNat ≤ 8202) ∨ c.toNat = 8232 ∨ c.toNat = 8233 ∨
    c.toNat = 8239 ∨ c.toNat = 8287 ∨ c.toNat = 12288)

/-- Go `strings.TrimSpace`. -/
def stringsTrimSpace (s : String) : String :=
  String.mk ((s.data.dropWhile unicodeIsSpace).reverse.dropWhile unicodeIsSpace).reverse

/-- Scan for Go `strings.Split` with a non-empty separator: `skip` characters
of a matched separator are still to be passed over, `cur` is the current part,
reversed. -/
def splitScan (sep : List Char) : Nat → List Char → List Char → List (List Char)
  | _, cur, [] => [cur.reverse]
  | skip + 1, cur, _ :: rest => splitScan sep skip cur rest
  | 0, cur, c :: rest =>
    if sep.isPrefixOf (c :: rest) then cur.reverse :: splitScan sep (sep.length - 1) [] rest
    else splitScan sep 0 (c :: cur) rest

/-- Go `strings.Split(s, sep)`: the parts between the non-overlapping
occurrences of `sep`, found left to right; with an empty `sep`, one part per
character. -/
def stringsSplit (s sep : String) : List String :=
  if sep.data = [] then s.data.map (fun c => String.mk [c])
  else (splitScan sep.data 0 [] s.data).map String.mk

/-- Scan for Go `strings.Count` with a non-empty separator. -/
def countScan (sep : List Char) : Nat → List Char → Nat
  | _, [] => 0
  | skip + 1, _ :: rest => countScan sep skip rest
  | 0, c :: rest =>
    if sep.isPrefixOf (c :: rest) then countScan sep (sep.length - 1) rest + 1
    else countScan sep 0 rest

/-- Go `strings.Count(s, substr)`: the number of non-overlapping occurrences;
with an empty `substr`, one more than the number of characters. -/
def stringsCount (s substr : String) : Nat :=
  if substr.data = [] then s.data.length + 1 else countScan substr.data 0 s.data

/-- The constant `USAGE` of client.go. -/
def USAGE : String := "Usage:\n  quit\n  list\n  set-name\n  <username>: <message>"

/-- What `getUserInput` did: the messages put on the channel `input`, in order,
and the text printed. -/
structure InputRun where
  queued : List WhatsUpMsg
  printed : List String

/-- The results that successive calls of Go `reader.ReadString('\n')` return
without error on the input still unread: each is the data up to and including
the next line break.  `cur` is the line being read, reversed.  What is left
after the last line break is returned by `ReadString` together with `io.EOF`;
it is not a member of the list. -/
def readLines : List Char → List Char → List String
  | _, [] => []
  | cur, c :: rest =>
    if c = Char.ofNat 10 then String.mk (c :: cur).reverse :: readLines [] rest
    else readLines (c :: cur) rest

/-- The loop of Go `getUserInput`, run on the lines `reader.ReadString` returns
without error; when they run out `ReadString` returns an error and the
function closes the channel and returns. -/
def getUserInputLoop (MSG_DELIM : String) : List String → InputRun
  | [] => ⟨[], []⟩
  | line :: rest =>
    let userIn := stringsTrimSpace line
    if userIn = "quit" then
      ⟨[{ Action := Purpose.DISCONNECT, Body := "", Username := "" }], []⟩
    else if userIn = "list" then
      let r := getUserInputLoop MSG_DELIM rest
      ⟨{ Action := Purpose.LIST, Body := "", Username := "" } :: r.queued, r.printed⟩
    else if userIn = "set-name" then
      match rest with
      | [] => ⟨[], ["name: ", "EOF\n"]⟩
      | nameLine :: rest₂ =>
        let r := getUserInputLoop MSG_DELIM rest₂
        ⟨{ Action := Purpose.CONNECT, Body := "", Username := stringsTrimSpace nameLine }
            :: r.queued, "name: " :: r.printed⟩
    else
      let userInSplit := stringsSplit userIn MSG_DELIM
      if userInSplit.length ≠ 2 then
        let r := getUserInputLoop MSG_DELIM rest
        ⟨r.queued, "Invalid input\n" :: (USAGE ++ "\n") :: r.printed⟩
      else
        let r := getUserInputLoop MSG_DELIM rest
        ⟨{ Body := stringsTrimSpace (userInSplit.getD 1 ""),
           Username := stringsTrimSpace (userInSplit.getD 0 ""),
           Action := Purpose.MSG } :: r.queued, r.printed⟩

/-- Go `getUserInput`, run on the contents of stdin. -/
def getUserInput (MSG_DELIM : String) (stdin : String) : InputRun :=
  getUserInputLoop MSG_DELIM (readLines [] stdin.data)

/-! ## Lemmas on Go maps -/

theorem lookupEntries_eraseEntries_self {K V : Type} [DecidableEq K] (k : K)
    (l : List (K × V)) : lookupEntries k (eraseEntries k l) = none := by
  induction l with
  | nil => rfl
  | cons e rest ih =>
    by_cases h : e.1 = k
    · simpa [eraseEntries, h] using ih
    · have : eraseEntries k (e :: rest) = e :: eraseEntries k rest := by
        simp [eraseEntries, h]
      rw [this]
      simp [lookupEntries, h, ih]

theorem lookupEntries_eraseEntries_ne {K V : Type} [DecidableEq K] (k k' : K)
    (l : List (K × V)) (hne : k' ≠ k) :
    lookupEntries k' (eraseEntries k l) = lookupEntries k' l := by
  induction l with
  | nil => rfl
  | cons e rest ih =>
    by_cases h : e.1 = k
    · have h' : e.1 ≠ k' := fun h2 => hne (h2.symm.trans h)
      have : eraseEntries k (e :: rest) = eraseEntries k rest := by
        simp [eraseEntries, h]
      rw [this, ih]
      simp [lookupEntries, h']
    · have : eraseEntries k (e :: rest) = e :: eraseEntries k rest := by
        simp [eraseEntries, h]
      rw [this]
      simp [lookupEntries, ih]

theorem lookupEntries_eq_none_iff {K V : Type} [DecidableEq K] (k : K) (l : List (K × V)) :
    lookupEntries k l = none ↔ k ∉ l.map Prod.fst := by
  induction l with
  | nil => simp [lookupEntries]
  | cons e rest ih =>
    by_cases h : e.1 = k
    · simp [lookupEntries, h]
    · have h' : ¬ k = e.1 := fun h2 => h h2.symm
      simp only [lookupEntries, h, if_false, ih, List.map_cons, List.mem_cons, not_or]
      exact ⟨fun hr => ⟨h', hr⟩, fun hr => hr.2⟩

theorem eraseEntries_of_lookup_none {K V : Type} [DecidableEq K] (k : K) (l : List (K × V))
    (h : lookupEntries k l = none) : eraseEntries k l = l := by
  rw [lookupEntries_eq_none_iff] at h
  unfold eraseEntries
  rw [List.filter_eq_self]
  intro e he
  have : e.1 ≠ k := fun h2 => h (h2 ▸ List.mem_map_of_mem Prod.fst he)
  simpa using this

namespace GoMap

variable {K V : Type} [DecidableEq K]

theorem ext_entries {m₁ m₂ : GoMap K V} (h : m₁.entries = m₂.entries) : m₁ = m₂ := by
  cases m₁; cases m₂; cases h; rfl

theorem get?_set_self (m : GoMap K V) (k : K) (v : V) : (m.set k v).get? k = some v := by
  simp [get?, set, lookupEntries]

theorem get?_set_ne (m : GoMap K V) (k k' : K) (v : V) (h : k' ≠ k) :
    (m.set k v).get? k' = m.get? k' := by
  have h' : ¬ k = k' := fun h2 => h h2.symm
  simp [get?, set, lookupEntries, h', lookupEntries_eraseEntries_ne k k' m.entries h]

theorem get?_delete_self (m : GoMap K V) (k : K) : (m.delete k).get? k = none :=
  lookupEntries_eraseEntries_self k m.entries

theorem get?_delete_ne (m : GoMap K V) (k k' : K) (h : k' ≠ k) :
    (m.delete k).get? k' = m.get? k' :=
  lookupEntries_eraseEntries_ne k k' m.entries h

theorem delete_of_get?_none (m : GoMap K V) (k : K) (h : m.get? k = none) :
    m.delete k = m :=
  ext_entries (eraseEntries_of_lookup_none k m.entries h)

theorem contains_eq_false_iff (m : GoMap K V) (k : K) :
    m.contains k = false ↔ m.get? k = none := by
  unfold contains
  cases m.get? k <;> simp

theorem contains_iff_mem_keys (m : GoMap K V) (k : K) :
    m.contains k = true ↔ k ∈ m.keys := by
  have h := lookupEntries_eq_none_iff k m.entries
  unfold contains get? keys
  cases hl : lookupEntries k m.entries with
  | none => simpa [hl] using h.mp hl
  | some v =>
    have : ¬ (k ∉ m.entries.map Prod.fst) := fun hn => by
      rw [h.mpr hn] at hl; cases hl
    simpa using this

theorem keys_nodup (m : GoMap K V) : m.keys.Nodup := m.nodup

end GoMap

/-! ## Lemmas on strings -/

theorem stringsContains_spec (s substr : String) :
    stringsContains s substr = true ↔ substr.data <:+: s.data := by
  unfold stringsContains
  rw [List.any_eq_true]
  constructor
  · rintro ⟨t, ht, hp⟩
    rw [List.mem_tails] at ht
    rw [ List.isPrefixOf_iff_prefix] at hp
    exact List.infix_iff_prefix_suffix.mpr ⟨t, hp, ht⟩
  · intro h
    obtain ⟨t, hp, ht⟩ := List.infix_iff_prefix_suffix.mp h
    exact ⟨t, (List.mem_tails _ _).mpr ht, List.isPrefixOf_iff_prefix.mpr hp⟩

theorem usernameValid_empty (MSG_DELIM : String) (h : MSG_DELIM ≠ "") :
    usernameValid MSG_DELIM "" = true := by
  unfold usernameValid
  cases hc : stringsContains "" MSG_DELIM with
  | false => rfl
  | true =>
    exfalso
    rw [stringsContains_spec] at hc
    have h0 : MSG_DELIM.data = [] := List.eq_nil_of_infix_nil hc
    apply h
    cases MSG_DELIM
    simp_all

/-! ## The inverse-maps invariant and deregister -/

/-- C1, evaluated where it fails: connection 1 registers the empty name, then
`deregister` runs for connection 2, which never registered.  `conns` still maps
connection 1 to `""`, but `users` has lost the key `""`: the two maps are no
longer inverses. -/
theorem C1_inverses_broken_by_deregister :
    (runCalls ":" currentConns.init
        [RegistryCall.register (ChatConn.mk 1) "",
         RegistryCall.deregister (ChatConn.mk 2)]).conns.get? (ChatConn.mk 1) = some "" ∧
    (runCalls ":" currentConns.init
        [RegistryCall.register (ChatConn.mk 1) "",
         RegistryCall.deregister (ChatConn.mk 2)]).users.get? "" = none ∧
    ¬ Inverses (runCalls ":" currentConns.init
        [RegistryCall.register (ChatConn.mk 1) "",
         RegistryCall.deregister (ChatConn.mk 2)]) := by
  refine ⟨by decide, by decide, fun h => ?_⟩
  have h1 := (h "" (ChatConn.mk 1)).mpr (by decide)
  revert h1
  decide

/-- C2, evaluated where it fails: connection 1 sends CONNECT with the empty
name, connection 2 sends DISCONNECT without having registered, connection 3
sends CONNECT with the empty name.  Both connection 1 and connection 3 are then
registered under `""` in `conns`. -/
theorem C2_two_connections_one_name :
    (handleRequests ":" currentConns.init
        [Request.mk (ChatConn.mk 1) (WhatsUpMsg.mk Purpose.CONNECT "" "") [],
         Request.mk (ChatConn.mk 2) (WhatsUpMsg.mk Purpose.DISCONNECT "" "") [],
         Request.mk (ChatConn.mk 3) (WhatsUpMsg.mk Purpose.CONNECT "" "") []]).conns.get?
        (ChatConn.mk 1) = some "" ∧
    (handleRequests ":" currentConns.init
        [Request.mk (ChatConn.mk 1) (WhatsUpMsg.mk Purpose.CONNECT "" "") [],
         Request.mk (ChatConn.mk 2) (WhatsUpMsg.mk Purpose.DISCONNECT "" "") [],
         Request.mk (ChatConn.mk 3) (WhatsUpMsg.mk Purpose.CONNECT "" "") []]).conns.get?
        (ChatConn.mk 3) = some "" ∧
    ¬ UniqueNames (handleRequests ":" currentConns.init
        [Request.mk (ChatConn.mk 1) (WhatsUpMsg.mk Purpose.CONNECT "" "") [],
         Request.mk (ChatConn.mk 2) (WhatsUpMsg.mk Purpose.DISCONNECT "" "") [],
         Request.mk (ChatConn.mk 3) (WhatsUpMsg.mk Purpose.CONNECT "" "") []]) := by
  refine ⟨by decide, by decide, fun h => ?_⟩
  have h1 := h (ChatConn.mk 1) (ChatConn.mk 3) "" (by decide) (by decide)
  revert h1
  decide

/-- C3, evaluated where it fails: connection 1 holds the empty name and
connection 2 is not a key of `conns`; `deregister` of connection 2 removes the
key `""` from `users`. -/
theorem C3_deregister_unregistered_changes_users :
    (register ":" currentConns.init (ChatConn.mk 1) "").1.conns.contains (ChatConn.mk 2) = false ∧
    (register ":" currentConns.init (ChatConn.mk 1) "").1.users.get? "" = some (ChatConn.mk 1) ∧
    (deregister (register ":" currentConns.init (ChatConn.mk 1) "").1
        (ChatConn.mk 2)).1.users.get? "" = none := by
  decide

/-- C4, evaluated where it fails: connection 1 holds the empty name and
connection 2 holds `bob`.  The first `deregister` of connection 2 keeps the key
`""` in `users`, the second one removes it. -/
theorem C4_deregister_twice_differs :
    (deregister (runCalls ":" currentConns.init
        [RegistryCall.register (ChatConn.mk 1) "",
         RegistryCall.register (ChatConn.mk 2) "bob"]) (ChatConn.mk 2)).1.users.get? ""
      = some (ChatConn.mk 1) ∧
    (deregister (deregister (runCalls ":" currentConns.init
        [RegistryCall.register (ChatConn.mk 1) "",
         RegistryCall.register (ChatConn.mk 2) "bob"]) (ChatConn.mk 2)).1
        (ChatConn.mk 2)).1.users.get? "" = none := by
  decide

/-! ## register -/

/-- C5: `register(c, n)` decides in this order.  If `c` is a key of `conns`: one
ERROR "Connection already registered with user" to `c`, registry unchanged.
Else if `n` contains `MSG_DELIM`: one ERROR "Username not valid" to `c`,
registry unchanged.  Else if `n` is a key of `users`: one ERROR "Username
already taken" to `c`, registry unchanged.  Otherwise nothing is sent, the new
registry has `users[n] = c` and `conns[c] = n`, and every other key of either
map reads as before. -/
theorem C5_register_decision_order (MSG_DELIM : String) (s : currentConns) (c : ChatConn)
    (n : String) :
    (s.conns.contains c = true →
      register MSG_DELIM s c n
        = (s, [(c, WhatsUpMsg.mk Purpose.ERROR "Connection already registered with user"
                    "SERVER")])) ∧
    (s.conns.contains c = false → stringsContains n MSG_DELIM = true →
      register MSG_DELIM s c n
        = (s, [(c, WhatsUpMsg.mk Purpose.ERROR "Username not valid" "SERVER")])) ∧
    (s.conns.contains c = false → stringsContains n MSG_DELIM = false →
      s.users.contains n = true →
      register MSG_DELIM s c n
        = (s, [(c, WhatsUpMsg.mk Purpose.ERROR "Username already taken" "SERVER")])) ∧
    (s.conns.contains c = false → stringsContains n MSG_DELIM = false →
      s.users.contains n = false →
      (register MSG_DELIM s c n).2 = [] ∧
      (register MSG_DELIM s c n).1.users.get? n = some c ∧
      (register MSG_DELIM s c n).1.conns.get? c = some n ∧
      (∀ n', n' ≠ n → (register MSG_DELIM s c n).1.users.get? n' = s.users.get? n') ∧
      (∀ c', c' ≠ c → (register MSG_DELIM s c n).1.conns.get? c' = s.conns.get? c')) := by
  refine ⟨?_, ?_, ?_, ?_⟩
  · intro h1
    simp [register, h1, serverErrorMsg]
  · intro h1 h2
    simp [register, h1, h2, usernameValid, serverErrorMsg]
  · intro h1 h2 h3
    simp [register, h1, h2, h3, usernameValid, serverErrorMsg]
  · intro h1 h2 h3
    have hr : register MSG_DELIM s c n
        = ({ users := s.users.set n c, conns := s.conns.set c n }, []) := by
      simp [register, h1, h2, h3, usernameValid]
    rw [hr]
    exact ⟨rfl, GoMap.get?_set_self _ _ _, GoMap.get?_set_self _ _ _,
      fun n' hn => GoMap.get?_set_ne _ _ _ _ hn, fun c' hc => GoMap.get?_set_ne _ _ _ _ hc⟩

/-- C5 at a concrete input: on the empty registry connection 1 registers
`alice`. -/
theorem C5_register_decision_order_witness :
    currentConns.init.conns.contains (ChatConn.mk 1) = false ∧
    stringsContains "alice" ":" = false ∧
    currentConns.init.users.contains "alice" = false ∧
    ((register ":" currentConns.init (ChatConn.mk 1) "alice").2 = [] ∧
      (register ":" currentConns.init (ChatConn.mk 1) "alice").1.users.get? "alice"
        = some (ChatConn.mk 1) ∧
      (register ":" currentConns.init (ChatConn.mk 1) "alice").1.conns.get? (ChatConn.mk 1)
        = some "alice" ∧
      (∀ n', n' ≠ "alice" →
        (register ":" currentConns.init (ChatConn.mk 1) "alice").1.users.get? n'
          = currentConns.init.users.get? n') ∧
      (∀ c', c' ≠ ChatConn.mk 1 →
        (register ":" currentConns.init (ChatConn.mk 1) "alice").1.conns.get? c'
          = currentConns.init.conns.get? c')) :=
  ⟨by decide, by decide, by decide,
    (C5_register_decision_order ":" currentConns.init (ChatConn.mk 1) "alice").2.2.2
      (by decide) (by decide) (by decide)⟩

/-- C6 as stated fails: connection 1 already holds `bob` and registers `a:b`,
which contains the delimiter `:`.  The reply is "Connection already registered
with user", not "Username not valid". -/
theorem C6_counterexample_already_registered :
    stringsContains "a:b" ":" = true ∧
    (register ":" (register ":" currentConns.init (ChatConn.mk 1) "bob").1
        (ChatConn.mk 1) "a:b").2
      = [(ChatConn.mk 1,
          WhatsUpMsg.mk Purpose.ERROR "Connection already registered with user" "SERVER")] ∧
    (register ":" (register ":" currentConns.init (ChatConn.mk 1) "bob").1
        (ChatConn.mk 1) "a:b").2
      ≠ [(ChatConn.mk 1, WhatsUpMsg.mk Purpose.ERROR "Username not valid" "SERVER")] := by
  decide

/-- C6, amended: for a name `n` that contains `MSG_DELIM`, `register(c, n)`
leaves the registry unchanged and sends exactly one ERROR to `c`: "Username not
valid" when `c` is not a key of `conns`, "Connection already registered with
user" when it is. -/
theorem C6_delimiter_name_rejected (MSG_DELIM : String) (s : currentConns) (c : ChatConn)
    (n : String) (hn : stringsContains n MSG_DELIM = true) :
    (register MSG_DELIM s c n).1 = s ∧
    (s.conns.contains c = false →
      (register MSG_DELIM s c n).2
        = [(c, WhatsUpMsg.mk Purpose.ERROR "Username not valid" "SERVER")]) ∧
    (s.conns.contains c = true →
      (register MSG_DELIM s c n).2
        = [(c, WhatsUpMsg.mk Purpose.ERROR "Connection already registered with user"
                "SERVER")]) := by
  refine ⟨?_, ?_, ?_⟩
  · cases h1 : s.conns.contains c <;> simp [register, h1, hn, usernameValid]
  · intro h1
    simp [register, h1, hn, usernameValid, serverErrorMsg]
  · intro h1
    simp [register, h1, serverErrorMsg]

/-- C6 amended, at a concrete input: an unregistered connection registers
`a:b` on the empty registry. -/
theorem C6_delimiter_name_rejected_witness :
    stringsContains "a:b" ":" = true ∧
    currentConns.init.conns.contains (ChatConn.mk 1) = false ∧
    (register ":" currentConns.init (ChatConn.mk 1) "a:b").1 = currentConns.init ∧
    (register ":" currentConns.init (ChatConn.mk 1) "a:b").2
      = [(ChatConn.mk 1, WhatsUpMsg.mk Purpose.ERROR "Username not valid" "SERVER")] :=
  ⟨by decide, by decide,
    (C6_delimiter_name_rejected ":" currentConns.init (ChatConn.mk 1) "a:b" (by decide)).1,
    (C6_delimiter_name_rejected ":" currentConns.init (ChatConn.mk 1) "a:b" (by decide)).2.1
      (by decide)⟩

/-! ## sendUserMsg -/

/-- C7: when `A` is registered under `sName` and `r` is registered to `B`, a
SEND (MSG) from `A` with `Username = r` and `Body = b` makes exactly one
outbound message, to `B`, of kind MSG, with `Body = b` and `Username = sName`;
the registry is unchanged and the connection stays open. -/
theorem C7_send_forwarded_with_sender_name (MSG_DELIM : String) (order : List String)
    (s : currentConns) (A B : ChatConn) (sName r b : String)
    (hA : s.conns.get? A = some sName) (hB : s.users.get? r = some B) :
    sendUserMsg s (WhatsUpMsg.mk Purpose.MSG b r) A
      = (s, [(B, WhatsUpMsg.mk Purpose.MSG b sName)]) ∧
    handleMsg MSG_DELIM order (WhatsUpMsg.mk Purpose.MSG b r) A s
      = (s, [(B, WhatsUpMsg.mk Purpose.MSG b sName)], false) := by
  have h : sendUserMsg s (WhatsUpMsg.mk Purpose.MSG b r) A
      = (s, [(B, WhatsUpMsg.mk Purpose.MSG b sName)]) := by
    simp [sendUserMsg, hA, hB]
  refine ⟨h, ?_⟩
  simp only [handleMsg, h]

/-- C7 at a concrete input: connection 1 registers `alice`, connection 2
registers `bob`, connection 1 sends `hi` naming `bob`; connection 2 receives
`hi` from `alice`. -/
theorem C7_send_forwarded_with_sender_name_witness :
    (runCalls ":" currentConns.init
        [RegistryCall.register (ChatConn.mk 1) "alice",
         RegistryCall.register (ChatConn.mk 2) "bob"]).conns.get? (ChatConn.mk 1)
      = some "alice" ∧
    (runCalls ":" currentConns.init
        [RegistryCall.register (ChatConn.mk 1) "alice",
         RegistryCall.register (ChatConn.mk 2) "bob"]).users.get? "bob"
      = some (ChatConn.mk 2) ∧
    handleMsg ":" ["bob", "alice"] (WhatsUpMsg.mk Purpose.MSG "hi" "bob") (ChatConn.mk 1)
        (runCalls ":" currentConns.init
          [RegistryCall.register (ChatConn.mk 1) "alice",
           RegistryCall.register (ChatConn.mk 2) "bob"])
      = (runCalls ":" currentConns.init
          [RegistryCall.register (ChatConn.mk 1) "alice",
           RegistryCall.register (ChatConn.mk 2) "bob"],
         [(ChatConn.mk 2, WhatsUpMsg.mk Purpose.MSG "hi" "alice")], false) :=
  ⟨by decide, by decide,
    (C7_send_forwarded_with_sender_name ":" ["bob", "alice"]
      (runCalls ":" currentConns.init
        [RegistryCall.register (ChatConn.mk 1) "alice",
         RegistryCall.register (ChatConn.mk 2) "bob"])
      (ChatConn.mk 1) (ChatConn.mk 2) "alice" "bob" "hi" (by decide) (by decide)).2⟩

/-- C8: when the `Username` of a SEND is not a key of `users`, exactly one
message is sent, the ERROR "Unable to find requested user" addressed to the
source `A`; the registry is unchanged and the connection stays open. -/
theorem C8_send_unknown_recipient (MSG_DELIM : String) (order : List String)
    (s : currentConns) (A : ChatConn) (msg : WhatsUpMsg)
    (hr : s.users.contains msg.Username = false) :
    sendUserMsg s msg A
      = (s, [(A, WhatsUpMsg.mk Purpose.ERROR "Unable to find requested user" "SERVER")]) ∧
    (msg.Action = Purpose.MSG →
      handleMsg MSG_DELIM order msg A s
        = (s, [(A, WhatsUpMsg.mk Purpose.ERROR "Unable to find requested user" "SERVER")],
            false)) := by
  have hnone : s.users.get? msg.Username = none := (GoMap.contains_eq_false_iff _ _).mp hr
  have h : sendUserMsg s msg A
      = (s, [(A, WhatsUpMsg.mk Purpose.ERROR "Unable to find requested user" "SERVER")]) := by
    simp [sendUserMsg, hnone, serverErrorMsg]
  refine ⟨h, fun ha => ?_⟩
  simp only [handleMsg, ha, h]

/-- C8 at a concrete input: connection 1 holds `alice`, nobody holds `carol`;
connection 1 sends `hi` naming `carol`. -/
theorem C8_send_unknown_recipient_witness :
    (register ":" currentConns.init (ChatConn.mk 1) "alice").1.users.contains
        (WhatsUpMsg.mk Purpose.MSG "hi" "carol").Username = false ∧
    handleMsg ":" ["alice"] (WhatsUpMsg.mk Purpose.MSG "hi" "carol") (ChatConn.mk 1)
        (register ":" currentConns.init (ChatConn.mk 1) "alice").1
      = ((register ":" currentConns.init (ChatConn.mk 1) "alice").1,
         [(ChatConn.mk 1,
           WhatsUpMsg.mk Purpose.ERROR "Unable to find requested user" "SERVER")], false) :=
  ⟨by decide,
    (C8_send_unknown_recipient ":" ["alice"]
      (register ":" currentConns.init (ChatConn.mk 1) "alice").1 (ChatConn.mk 1)
      (WhatsUpMsg.mk Purpose.MSG "hi" "carol") (by decide)).2 rfl⟩

/-! ## listUsers -/

theorem bodyLines_stringsJoin (order : List String) (hne : order ≠ [])
    (hnl : ∀ n ∈ order, Char.ofNat 10 ∉ n.data) :
    bodyLines (stringsJoin order "\n") = order := by
  unfold bodyLines stringsJoin
  have hsep : "\n".data = [Char.ofNat 10] := rfl
  rw [hsep]
  have hx : ∀ l ∈ order.map String.data, Char.ofNat 10 ∉ l := by
    intro l hl
    obtain ⟨n, hn, rfl⟩ := List.mem_map.mp hl
    exact hnl n hn
  have hls : order.map String.data ≠ [] := by
    intro h
    exact hne (List.map_eq_nil_iff.mp h)
  rw [List.splitOn_intercalate _ (Char.ofNat 10) hx hls, List.map_map]
  conv_rhs => rw [← List.map_id order]
  exact List.map_congr_left (fun n _ => rfl)

theorem bodyLines_stringsJoin_nil : bodyLines (stringsJoin [] "\n") = [""] := by
  decide


/-- C9 as stated fails: connection 1 holds the name `a⏎b` (an `a`, a newline, a
`b`), which contains no `:`.  The LIST body is that name; read line by line it
is the two lines `a` and `b`, neither of them a registered name, and the
registered name is not a line. -/
theorem C9_counterexample_newline_in_name :
    (register ":" currentConns.init (ChatConn.mk 1) "a\nb").1.users.keys = ["a\nb"] ∧
    (listUsers (register ":" currentConns.init (ChatConn.mk 1) "a\nb").1 ["a\nb"]
        (ChatConn.mk 2)).2
      = [(ChatConn.mk 2, WhatsUpMsg.mk Purpose.LIST "a\nb" "SERVER")] ∧
    bodyLines "a\nb" = ["a", "b"] ∧
    (register ":" currentConns.init (ChatConn.mk 1) "a\nb").1.users.contains "a" = false ∧
    ¬ (bodyLines "a\nb").Perm
        (register ":" currentConns.init (ChatConn.mk 1) "a\nb").1.users.keys := by
  refine ⟨by decide, by decide, by decide, by decide, fun h => ?_⟩
  have hlen := h.length_eq
  revert hlen
  decide

/-- C9, amended: `listUsers` sends exactly one message, to the source, of kind
LIST; its body is the registered names, each exactly once, in the order the
map iteration visits them, joined by newline.  When at least one name is
registered and no registered name contains a newline, the body read line by
line is exactly that roster. -/
theorem C9_list_body_is_joined_roster (s : currentConns) (order : List String)
    (src : ChatConn) (hperm : order.Perm s.users.keys) :
    listUsers s order src
      = (s, [(src, WhatsUpMsg.mk Purpose.LIST (stringsJoin order "\n") "SERVER")]) ∧
    order.Nodup ∧
    (∀ n, n ∈ order ↔ s.users.contains n = true) ∧
    (order ≠ [] → (∀ n ∈ order, Char.ofNat 10 ∉ n.data) →
      bodyLines (stringsJoin order "\n") = order ∧
      (bodyLines (stringsJoin order "\n")).Perm s.users.keys) := by
  refine ⟨rfl, hperm.nodup_iff.mpr s.users.keys_nodup, fun n => ?_, fun hne hnl => ?_⟩
  · rw [GoMap.contains_iff_mem_keys]
    exact hperm.mem_iff
  · have h := bodyLines_stringsJoin order hne hnl
    exact ⟨h, by rw [h]; exact hperm⟩

/-- C9 amended, at a concrete input: `alice` then `bob` register; the map is
visited in the order `bob`, `alice`. -/
theorem C9_list_body_is_joined_roster_witness :
    ["bob", "alice"].Perm
      (runCalls ":" currentConns.init
        [RegistryCall.register (ChatConn.mk 1) "alice",
         RegistryCall.register (ChatConn.mk 2) "bob"]).users.keys ∧
    (listUsers (runCalls ":" currentConns.init
        [RegistryCall.register (ChatConn.mk 1) "alice",
         RegistryCall.register (ChatConn.mk 2) "bob"]) ["bob", "alice"] (ChatConn.mk 3)).2
      = [(ChatConn.mk 3, WhatsUpMsg.mk Purpose.LIST "bob\nalice" "SERVER")] ∧
    bodyLines (stringsJoin ["bob", "alice"] "\n") = ["bob", "alice"] :=
  ⟨by decide,
    by
      rw [(C9_list_body_is_joined_roster (runCalls ":" currentConns.init
        [RegistryCall.register (ChatConn.mk 1) "alice",
         RegistryCall.register (ChatConn.mk 2) "bob"]) ["bob", "alice"] (ChatConn.mk 3)
        (by decide)).1]
      decide,
    ((C9_list_body_is_joined_roster (runCalls ":" currentConns.init
        [RegistryCall.register (ChatConn.mk 1) "alice",
         RegistryCall.register (ChatConn.mk 2) "bob"]) ["bob", "alice"] (ChatConn.mk 3)
        (by decide)).2.2.2 (by decide) (by decide)).1⟩

/-- C10 as stated fails: connection 1 holds `a`, connection 2 holds `b⏎a` (a
`b`, a newline, an `a`).  After the DISCONNECT of connection 1 the LIST reply
to connection 2 has the body `b⏎a`, whose second line is `a`. -/
theorem C10_counterexample_name_still_a_line :
    (runCalls ":" currentConns.init
        [RegistryCall.register (ChatConn.mk 1) "a",
         RegistryCall.register (ChatConn.mk 2) "b\na"]).conns.get? (ChatConn.mk 1)
      = some "a" ∧
    (handleMsg ":" [] (WhatsUpMsg.mk Purpose.DISCONNECT "" "") (ChatConn.mk 1)
        (runCalls ":" currentConns.init
          [RegistryCall.register (ChatConn.mk 1) "a",
           RegistryCall.register (ChatConn.mk 2) "b\na"])).1.users.keys = ["b\na"] ∧
    (handleMsg ":" ["b\na"] (WhatsUpMsg.mk Purpose.LIST "" "") (ChatConn.mk 2)
        (handleMsg ":" [] (WhatsUpMsg.mk Purpose.DISCONNECT "" "") (ChatConn.mk 1)
          (runCalls ":" currentConns.init
            [RegistryCall.register (ChatConn.mk 1) "a",
             RegistryCall.register (ChatConn.mk 2) "b\na"])).1).2.1
      = [(ChatConn.mk 2, WhatsUpMsg.mk Purpose.LIST "b\na" "SERVER")] ∧
    "a" ∈ bodyLines "b\na" := by
  decide

/-- C10, amended: when `A` is registered under `n`, handling `A`'s DISCONNECT
is `deregister(A)`; afterwards `n` is not a key of `users` and `A` is not a key
of `conns`.  The LIST reply requested next by any connection has as body the
remaining registered names joined by newline, `n` not among them; `n` is not a
line of that body when no remaining name contains a newline and either some
name remains or `n` is not the empty string. -/
theorem C10_disconnect_removes_name (MSG_DELIM : String) (order₀ : List String)
    (d : WhatsUpMsg) (s : currentConns) (A : ChatConn) (n : String)
    (hA : s.conns.get? A = some n) (hd : d.Action = Purpose.DISCONNECT) :
    handleMsg MSG_DELIM order₀ d A s = ((deregister s A).1, [], true) ∧
    (deregister s A).1.users.contains n = false ∧
    (deregister s A).1.conns.contains A = false ∧
    ∀ (order : List String) (B : ChatConn) (q : WhatsUpMsg),
      q.Action = Purpose.LIST → order.Perm (deregister s A).1.users.keys →
      handleMsg MSG_DELIM order q B (deregister s A).1
        = ((deregister s A).1,
           [(B, WhatsUpMsg.mk Purpose.LIST (stringsJoin order "\n") "SERVER")], false) ∧
      n ∉ order ∧
      ((∀ m ∈ order, Char.ofNat 10 ∉ m.data) → (order ≠ [] ∨ n ≠ "") →
        n ∉ bodyLines (stringsJoin order "\n")) := by
  have hu : (deregister s A).1.users.get? n = none := by
    simp [deregister, hA, GoMap.get?_delete_self]
  have hc : (deregister s A).1.conns.get? A = none := by
    simp [deregister, GoMap.get?_delete_self]
  have hun : (deregister s A).1.users.contains n = false :=
    (GoMap.contains_eq_false_iff _ _).mpr hu
  refine ⟨?_, hun, (GoMap.contains_eq_false_iff _ _).mpr hc, ?_⟩
  · simp only [handleMsg, hd]
    rfl
  · intro order B q hq hperm
    have hmem : n ∉ order := by
      intro hin
      have h1 := (GoMap.contains_iff_mem_keys _ _).mpr (hperm.mem_iff.mp hin)
      rw [hun] at h1
      cases h1
    refine ⟨?_, hmem, fun hnl hor => ?_⟩
    · simp only [handleMsg, hq, listUsers]
    · by_cases hne : order = []
      · subst hne
        rw [bodyLines_stringsJoin_nil]
        rcases hor with h | h
        · exact absurd rfl h
        · simpa using h
      · rw [bodyLines_stringsJoin order hne hnl]
        exact hmem

/-- C10 amended, at a concrete input: `alice` and `bob` are registered,
connection 1 (`alice`) disconnects, connection 2 asks for the list. -/
theorem C10_disconnect_removes_name_witness :
    (runCalls ":" currentConns.init
        [RegistryCall.register (ChatConn.mk 1) "alice",
         RegistryCall.register (ChatConn.mk 2) "bob"]).conns.get? (ChatConn.mk 1)
      = some "alice" ∧
    (WhatsUpMsg.mk Purpose.DISCONNECT "" "").Action = Purpose.DISCONNECT ∧
    (deregister (runCalls ":" currentConns.init
        [RegistryCall.register (ChatConn.mk 1) "alice",
         RegistryCall.register (ChatConn.mk 2) "bob"]) (ChatConn.mk 1)).1.users.contains
        "alice" = false ∧
    "alice" ∉ bodyLines (stringsJoin ["bob"] "\n") :=
  ⟨by decide, rfl,
    (C10_disconnect_removes_name ":" [] (WhatsUpMsg.mk Purpose.DISCONNECT "" "")
      (runCalls ":" currentConns.init
        [RegistryCall.register (ChatConn.mk 1) "alice",
         RegistryCall.register (ChatConn.mk 2) "bob"]) (ChatConn.mk 1) "alice"
      (by decide) rfl).2.1,
    ((C10_disconnect_removes_name ":" [] (WhatsUpMsg.mk Purpose.DISCONNECT "" "")
      (runCalls ":" currentConns.init
        [RegistryCall.register (ChatConn.mk 1) "alice",
         RegistryCall.register (ChatConn.mk 2) "bob"]) (ChatConn.mk 1) "alice"
      (by decide) rfl).2.2.2 ["bob"] (ChatConn.mk 2) (WhatsUpMsg.mk Purpose.LIST "" "") rfl
      (by decide)).2.2 (by decide) (Or.inl (by decide))⟩

/-! ## handleMsg -/

/-- C11: `handleMsg` returns `connClosed = true` exactly when the kind is
DISCONNECT; a DISCONNECT is `deregister(source)`, sends no message and signals
close, whether or not the source was registered. -/
theorem C11_closed_iff_disconnect (MSG_DELIM : String) (order : List String)
    (msg : WhatsUpMsg) (src : ChatConn) (s : currentConns) :
    ((handleMsg MSG_DELIM order msg src s).2.2 = true ↔ msg.Action = Purpose.DISCONNECT) ∧
    (msg.Action = Purpose.DISCONNECT →
      handleMsg MSG_DELIM order msg src s = ((deregister s src).1, [], true)) := by
  constructor
  · cases h : msg.Action <;> simp [handleMsg, h]
  · intro h
    simp only [handleMsg, h]
    rfl

/-- C11 at concrete inputs: a DISCONNECT from a connection that never
registered, on the empty registry. -/
theorem C11_closed_iff_disconnect_witness :
    (WhatsUpMsg.mk Purpose.DISCONNECT "" "").Action = Purpose.DISCONNECT ∧
    handleMsg ":" [] (WhatsUpMsg.mk Purpose.DISCONNECT "" "") (ChatConn.mk 1) currentConns.init
      = ((deregister currentConns.init (ChatConn.mk 1)).1, [], true) :=
  ⟨rfl, (C11_closed_iff_disconnect ":" [] (WhatsUpMsg.mk Purpose.DISCONNECT "" "")
    (ChatConn.mk 1) currentConns.init).2 rfl⟩

/-! ## handleConnection -/

theorem deregisterCalls_append (l₁ l₂ : List RegistryCall) :
    deregisterCalls (l₁ ++ l₂) = deregisterCalls l₁ ++ deregisterCalls l₂ := by
  induction l₁ with
  | nil => rfl
  | cons call rest ih => cases call <;> simp [deregisterCalls, ih]

theorem handleConnectionSwitch_of_not_disconnect (MSG_DELIM : String) (order : List String)
    (msg : WhatsUpMsg) (conn : ChatConn) (s : currentConns)
    (h : msg.Action ≠ Purpose.DISCONNECT) :
    (handleConnectionSwitch MSG_DELIM order msg conn s).returned = false ∧
    deregisterCalls (handleConnectionSwitch MSG_DELIM order msg conn s).calls = [] := by
  cases ha : msg.Action with
  | DISCONNECT => exact absurd ha h
  | CONNECT => simp [handleConnectionSwitch, ha, deregisterCalls]
  | MSG => simp [handleConnectionSwitch, ha, deregisterCalls]
  | LIST => simp [handleConnectionSwitch, ha, deregisterCalls]
  | ERROR => simp [handleConnectionSwitch, ha, deregisterCalls]
  | other code => simp [handleConnectionSwitch, ha, deregisterCalls]

theorem conns_contains_deregister (s : currentConns) (conn : ChatConn) :
    (deregister s conn).1.conns.contains conn = false := by
  rw [GoMap.contains_eq_false_iff]
  simp [deregister, GoMap.get?_delete_self]

theorem handleConnection_continue (MSG_DELIM : String) (thisConn : ChatConn)
    (msg : WhatsUpMsg) (order : List String) (rest : List (RecvResult × List String))
    (s : currentConns)
    (hret : (handleConnectionSwitch MSG_DELIM order msg thisConn s).returned = false) :
    handleConnection MSG_DELIM thisConn ((RecvResult.ok msg, order) :: rest) s
      = ⟨(handleConnection MSG_DELIM thisConn rest
            (handleConnectionSwitch MSG_DELIM order msg thisConn s).registry).registry,
          (handleConnectionSwitch MSG_DELIM order msg thisConn s).sent ++
            (handleConnection MSG_DELIM thisConn rest
              (handleConnectionSwitch MSG_DELIM order msg thisConn s).registry).sent,
          (handleConnection MSG_DELIM thisConn rest
            (handleConnectionSwitch MSG_DELIM order msg thisConn s).registry).printed,
          (handleConnectionSwitch MSG_DELIM order msg thisConn s).calls ++
            (handleConnection MSG_DELIM thisConn rest
              (handleConnectionSwitch MSG_DELIM order msg thisConn s).registry).calls,
          (handleConnection MSG_DELIM thisConn rest
            (handleConnectionSwitch MSG_DELIM order msg thisConn s).registry).returned,
          (handleConnection MSG_DELIM thisConn rest
            (handleConnectionSwitch MSG_DELIM order msg thisConn s).registry).unread⟩ := by
  simp [handleConnection, hret]

/-- C12, evaluated where it fails: a message of kind ERROR (none of the four
request kinds) from connection 1 on the empty registry.  `handleMsg` replies
"Invalid request type"; the `switch` of `handleConnection`, and with it the
session loop, replies "Unknown request action" instead. -/
theorem C12_session_reply_differs_from_handleMsg :
    (handleMsg ":" [] (WhatsUpMsg.mk Purpose.ERROR "" "") (ChatConn.mk 1)
        currentConns.init).2.1
      = [(ChatConn.mk 1, WhatsUpMsg.mk Purpose.ERROR "Invalid request type" "SERVER")] ∧
    (handleConnectionSwitch ":" [] (WhatsUpMsg.mk Purpose.ERROR "" "") (ChatConn.mk 1)
        currentConns.init).sent
      = [(ChatConn.mk 1, WhatsUpMsg.mk Purpose.ERROR "Unknown request action" "SERVER")] ∧
    (handleConnection ":" (ChatConn.mk 1)
        [(RecvResult.ok (WhatsUpMsg.mk Purpose.ERROR "" ""), [])] currentConns.init).sent
      = [(ChatConn.mk 1, WhatsUpMsg.mk Purpose.ERROR "Unknown request action" "SERVER")] ∧
    (handleConnection ":" (ChatConn.mk 1)
        [(RecvResult.ok (WhatsUpMsg.mk Purpose.ERROR "" ""), [])] currentConns.init).sent
      ≠ (handleMsg ":" [] (WhatsUpMsg.mk Purpose.ERROR "" "") (ChatConn.mk 1)
          currentConns.init).2.1 := by
  decide

/-- What the two dispatchers do with a message whose kind is none of CONNECT,
MSG, LIST, DISCONNECT: `handleMsg` sends one ERROR "Invalid request type" to the
source, returns the registry unchanged and `connClosed = false`; the `switch` of
`handleConnection` sends one ERROR "Unknown request action" to the source,
calls no registry method, leaves the registry unchanged and does not return,
so the session goes on with the next receive result. -/
theorem unrecognized_kind_replies (MSG_DELIM : String) (order : List String)
    (msg : WhatsUpMsg) (src : ChatConn) (s : currentConns)
    (rest : List (RecvResult × List String))
    (h1 : msg.Action ≠ Purpose.CONNECT) (h2 : msg.Action ≠ Purpose.MSG)
    (h3 : msg.Action ≠ Purpose.LIST) (h4 : msg.Action ≠ Purpose.DISCONNECT) :
    handleMsg MSG_DELIM order msg src s
      = (s, [(src, WhatsUpMsg.mk Purpose.ERROR "Invalid request type" "SERVER")], false) ∧
    handleConnectionSwitch MSG_DELIM order msg src s
      = ⟨s, [(src, WhatsUpMsg.mk Purpose.ERROR "Unknown request action" "SERVER")], [],
          false⟩ ∧
    handleConnection MSG_DELIM src ((RecvResult.ok msg, order) :: rest) s
      = ⟨(handleConnection MSG_DELIM src rest s).registry,
          (src, WhatsUpMsg.mk Purpose.ERROR "Unknown request action" "SERVER")
            :: (handleConnection MSG_DELIM src rest s).sent,
          (handleConnection MSG_DELIM src rest s).printed,
          (handleConnection MSG_DELIM src rest s).calls,
          (handleConnection MSG_DELIM src rest s).returned,
          (handleConnection MSG_DELIM src rest s).unread⟩ := by
  have hm : handleMsg MSG_DELIM order msg src s
      = (s, [(src, WhatsUpMsg.mk Purpose.ERROR "Invalid request type" "SERVER")], false) := by
    cases h : msg.Action <;> simp_all [handleMsg, serverErrorMsg]
  have hs : handleConnectionSwitch MSG_DELIM order msg src s
      = ⟨s, [(src, WhatsUpMsg.mk Purpose.ERROR "Unknown request action" "SERVER")], [],
          false⟩ := by
    cases h : msg.Action <;> simp_all [handleConnectionSwitch, serverErrorMsg]
  refine ⟨hm, hs, ?_⟩
  rw [handleConnection_continue MSG_DELIM src msg order rest s (by rw [hs]), hs]
  rfl

theorem runCalls_append (MSG_DELIM : String) (s : currentConns)
    (l₁ l₂ : List RegistryCall) :
    runCalls MSG_DELIM s (l₁ ++ l₂) = runCalls MSG_DELIM (runCalls MSG_DELIM s l₁) l₂ := by
  unfold runCalls
  exact List.foldl_append _ _ _ _

theorem handleConnectionSwitch_registry (MSG_DELIM : String) (order : List String)
    (msg : WhatsUpMsg) (conn : ChatConn) (s : currentConns) :
    (handleConnectionSwitch MSG_DELIM order msg conn s).registry
      = runCalls MSG_DELIM s (handleConnectionSwitch MSG_DELIM order msg conn s).calls := by
  cases ha : msg.Action <;> simp [handleConnectionSwitch, ha, runCalls, applyCall]

theorem handleConnection_registry (MSG_DELIM : String) (thisConn : ChatConn)
    (inputs : List (RecvResult × List String)) :
    ∀ s : currentConns,
      (handleConnection MSG_DELIM thisConn inputs s).registry
        = runCalls MSG_DELIM s (handleConnection MSG_DELIM thisConn inputs s).calls := by
  induction inputs with
  | nil => intro s; rfl
  | cons x rest ih =>
    intro s
    obtain ⟨res, order⟩ := x
    cases res with
    | error text => rfl
    | ok msg =>
      have hsw := handleConnectionSwitch_registry MSG_DELIM order msg thisConn s
      cases hret : (handleConnectionSwitch MSG_DELIM order msg thisConn s).returned with
      | true =>
        have hrun : handleConnection MSG_DELIM thisConn ((RecvResult.ok msg, order) :: rest) s
            = ⟨(handleConnectionSwitch MSG_DELIM order msg thisConn s).registry,
                (handleConnectionSwitch MSG_DELIM order msg thisConn s).sent, [],
                (handleConnectionSwitch MSG_DELIM order msg thisConn s).calls, true, rest⟩ := by
          simp [handleConnection, hret]
        rw [hrun]
        exact hsw
      | false =>
        rw [handleConnection_continue MSG_DELIM thisConn msg order rest s hret]
        show (handleConnection MSG_DELIM thisConn rest _).registry = _
        rw [ih, runCalls_append, ← hsw]

theorem handleConnection_up_to_terminator (MSG_DELIM : String) (thisConn : ChatConn)
    (pre : List (RecvResult × List String)) (term : RecvResult × List String)
    (post : List (RecvResult × List String)) (s : currentConns)
    (hpre : ∀ x ∈ pre, isTerminator x.1 = false) (hterm : isTerminator term.1 = true) :
    (handleConnection MSG_DELIM thisConn (pre ++ term :: post) s).returned = true ∧
    deregisterCalls (handleConnection MSG_DELIM thisConn (pre ++ term :: post) s).calls
      = [thisConn] ∧
    (handleConnection MSG_DELIM thisConn (pre ++ term :: post) s).unread = post ∧
    (handleConnection MSG_DELIM thisConn (pre ++ term :: post) s).registry.conns.contains
      thisConn = false ∧
    (handleConnection MSG_DELIM thisConn (pre ++ term :: post) s).registry
      = (handleConnection MSG_DELIM thisConn (pre ++ [term]) s).registry ∧
    (handleConnection MSG_DELIM thisConn (pre ++ term :: post) s).sent
      = (handleConnection MSG_DELIM thisConn (pre ++ [term]) s).sent ∧
    (handleConnection MSG_DELIM thisConn (pre ++ term :: post) s).calls
      = (handleConnection MSG_DELIM thisConn (pre ++ [term]) s).calls ∧
    (handleConnection MSG_DELIM thisConn (pre ++ term :: post) s).printed
      = (handleConnection MSG_DELIM thisConn (pre ++ [term]) s).printed ∧
    (handleConnection MSG_DELIM thisConn (pre ++ term :: post) s).registry
      = (deregister (handleConnection MSG_DELIM thisConn pre s).registry thisConn).1 ∧
    (handleConnection MSG_DELIM thisConn (pre ++ term :: post) s).calls
      = (handleConnection MSG_DELIM thisConn pre s).calls
          ++ [RegistryCall.deregister thisConn] ∧
    (handleConnection MSG_DELIM thisConn (pre ++ term :: post) s).sent
      = (handleConnection MSG_DELIM thisConn pre s).sent := by
  induction pre generalizing s with
  | nil =>
    obtain ⟨res, order⟩ := term
    cases res with
    | error text =>
      simp [handleConnection, deregisterCalls, conns_contains_deregister]
      rfl
    | ok msg =>
      have ha : msg.Action = Purpose.DISCONNECT := by simpa [isTerminator] using hterm
      simp [handleConnection, handleConnectionSwitch, ha, deregisterCalls,
        conns_contains_deregister]
      rfl
  | cons x pre ih =>
    have hx := hpre x (List.mem_cons_self _ _)
    have ih' := fun s' => ih s' (fun y hy => hpre y (List.mem_cons_of_mem _ hy))
    obtain ⟨res, order⟩ := x
    cases res with
    | error text => simp [isTerminator] at hx
    | ok msg =>
      have ha : msg.Action ≠ Purpose.DISCONNECT := by simpa [isTerminator] using hx
      obtain ⟨hret, hcalls⟩ :=
        handleConnectionSwitch_of_not_disconnect MSG_DELIM order msg thisConn s ha
      obtain ⟨h1, h2, h3, h4, h5, h6, h7, h8, h9, h10, h11⟩ :=
        ih' (handleConnectionSwitch MSG_DELIM order msg thisConn s).registry
      rw [List.cons_append, List.cons_append,
        handleConnection_continue MSG_DELIM thisConn msg order _ s hret,
        handleConnection_continue MSG_DELIM thisConn msg order _ s hret,
        handleConnection_continue MSG_DELIM thisConn msg order pre s hret]
      refine ⟨h1, ?_, h3, h4, h5, ?_, ?_, h8, h9, ?_, ?_⟩
      · rw [deregisterCalls_append, hcalls, h2]
        rfl
      · rw [h6]
      · rw [h7]
      · show _ ++ _ = (_ ++ _) ++ _
        rw [h10, List.append_assoc]
      · show _ ++ _ = _ ++ _
        rw [h11]

/-- C13: a session fed receive results of which `term` is the first that ends
it (a DISCONNECT, end of stream or a transport error; `pre` holds none)
returns; among the registry methods it called, `deregister` was called exactly
once, for its own connection; it read nothing after `term` (`post` is left
unread and has no influence on what the session did); and on return its
connection is not a key of `conns`.  The call takes effect and is the last
thing the session does: the registry on return is `deregister(thisConn)`
applied to the registry the session had reached after `pre`, the calls are
those made for `pre` followed by that `deregister`, nothing is sent after
`pre`, and the registry on return is the initial one with the logged calls
applied in order. -/
theorem C13_session_deregisters_once (MSG_DELIM : String) (thisConn : ChatConn)
    (pre : List (RecvResult × List String)) (term : RecvResult × List String)
    (post : List (RecvResult × List String)) (s : currentConns)
    (hpre : ∀ x ∈ pre, isTerminator x.1 = false) (hterm : isTerminator term.1 = true) :
    (handleConnection MSG_DELIM thisConn (pre ++ term :: post) s).returned = true ∧
    deregisterCalls (handleConnection MSG_DELIM thisConn (pre ++ term :: post) s).calls
      = [thisConn] ∧
    (handleConnection MSG_DELIM thisConn (pre ++ term :: post) s).unread = post ∧
    (handleConnection MSG_DELIM thisConn (pre ++ term :: post) s).registry.conns.contains
      thisConn = false ∧
    (handleConnection MSG_DELIM thisConn (pre ++ term :: post) s).registry
      = (handleConnection MSG_DELIM thisConn (pre ++ [term]) s).registry ∧
    (handleConnection MSG_DELIM thisConn (pre ++ term :: post) s).sent
      = (handleConnection MSG_DELIM thisConn (pre ++ [term]) s).sent ∧
    (handleConnection MSG_DELIM thisConn (pre ++ term :: post) s).calls
      = (handleConnection MSG_DELIM thisConn (pre ++ [term]) s).calls ∧
    (handleConnection MSG_DELIM thisConn (pre ++ term :: post) s).printed
      = (handleConnection MSG_DELIM thisConn (pre ++ [term]) s).printed ∧
    (handleConnection MSG_DELIM thisConn (pre ++ term :: post) s).registry
      = (deregister (handleConnection MSG_DELIM thisConn pre s).registry thisConn).1 ∧
    (handleConnection MSG_DELIM thisConn (pre ++ term :: post) s).calls
      = (handleConnection MSG_DELIM thisConn pre s).calls
          ++ [RegistryCall.deregister thisConn] ∧
    (handleConnection MSG_DELIM thisConn (pre ++ term :: post) s).sent
      = (handleConnection MSG_DELIM thisConn pre s).sent ∧
    (handleConnection MSG_DELIM thisConn (pre ++ term :: post) s).registry
      = runCalls MSG_DELIM s
          (handleConnection MSG_DELIM thisConn (pre ++ term :: post) s).calls := by
  obtain ⟨h1, h2, h3, h4, h5, h6, h7, h8, h9, h10, h11⟩ :=
    handleConnection_up_to_terminator MSG_DELIM thisConn pre term post s hpre hterm
  exact ⟨h1, h2, h3, h4, h5, h6, h7, h8, h9, h10, h11,
    handleConnection_registry MSG_DELIM thisConn _ s⟩

/-- C13 at a concrete input: `bob` is registered by connection 2; connection 1
registers `alice`, asks for the list, then the stream ends; a further result
is never read.  Before the end `alice` is registered to connection 1; on
return `alice` is gone and `bob` is still registered. -/
theorem C13_session_deregisters_once_witness :
    (∀ x ∈ [(RecvResult.ok (WhatsUpMsg.mk Purpose.CONNECT "" "alice"), ([] : List String)),
            (RecvResult.ok (WhatsUpMsg.mk Purpose.LIST "" ""), ["alice", "bob"])],
        isTerminator x.1 = false) ∧
    isTerminator (RecvResult.error "EOF", ([] : List String)).1 = true ∧
    (handleConnection ":" (ChatConn.mk 1)
        ([(RecvResult.ok (WhatsUpMsg.mk Purpose.CONNECT "" "alice"), []),
          (RecvResult.ok (WhatsUpMsg.mk Purpose.LIST "" ""), ["alice", "bob"])]
          ++ (RecvResult.error "EOF", [])
            :: [(RecvResult.ok (WhatsUpMsg.mk Purpose.LIST "" ""), [])])
        (register ":" currentConns.init (ChatConn.mk 2) "bob").1).returned = true ∧
    deregisterCalls (handleConnection ":" (ChatConn.mk 1)
        ([(RecvResult.ok (WhatsUpMsg.mk Purpose.CONNECT "" "alice"), []),
          (RecvResult.ok (WhatsUpMsg.mk Purpose.LIST "" ""), ["alice", "bob"])]
          ++ (RecvResult.error "EOF", [])
            :: [(RecvResult.ok (WhatsUpMsg.mk Purpose.LIST "" ""), [])])
        (register ":" currentConns.init (ChatConn.mk 2) "bob").1).calls = [ChatConn.mk 1] ∧
    (handleConnection ":" (ChatConn.mk 1)
        ([(RecvResult.ok (WhatsUpMsg.mk Purpose.CONNECT "" "alice"), []),
          (RecvResult.ok (WhatsUpMsg.mk Purpose.LIST "" ""), ["alice", "bob"])]
          ++ (RecvResult.error "EOF", [])
            :: [(RecvResult.ok (WhatsUpMsg.mk Purpose.LIST "" ""), [])])
        (register ":" currentConns.init (ChatConn.mk 2) "bob").1).registry
      = (deregister (handleConnection ":" (ChatConn.mk 1)
          [(RecvResult.ok (WhatsUpMsg.mk Purpose.CONNECT "" "alice"), []),
          (RecvResult.ok (WhatsUpMsg.mk Purpose.LIST "" ""), ["alice", "bob"])]
          (register ":" currentConns.init (ChatConn.mk 2) "bob").1).registry
          (ChatConn.mk 1)).1 ∧
    (handleConnection ":" (ChatConn.mk 1)
        [(RecvResult.ok (WhatsUpMsg.mk Purpose.CONNECT "" "alice"), []),
          (RecvResult.ok (WhatsUpMsg.mk Purpose.LIST "" ""), ["alice", "bob"])]
        (register ":" currentConns.init (ChatConn.mk 2) "bob").1).registry.users.get? "alice"
      = some (ChatConn.mk 1) ∧
    (handleConnection ":" (ChatConn.mk 1)
        ([(RecvResult.ok (WhatsUpMsg.mk Purpose.CONNECT "" "alice"), []),
          (RecvResult.ok (WhatsUpMsg.mk Purpose.LIST "" ""), ["alice", "bob"])]
          ++ (RecvResult.error "EOF", [])
            :: [(RecvResult.ok (WhatsUpMsg.mk Purpose.LIST "" ""), [])])
        (register ":" currentConns.init (ChatConn.mk 2) "bob").1).registry.users.get? "alice" = none ∧
    (handleConnection ":" (ChatConn.mk 1)
        ([(RecvResult.ok (WhatsUpMsg.mk Purpose.CONNECT "" "alice"), []),
          (RecvResult.ok (WhatsUpMsg.mk Purpose.LIST "" ""), ["alice", "bob"])]
          ++ (RecvResult.error "EOF", [])
            :: [(RecvResult.ok (WhatsUpMsg.mk Purpose.LIST "" ""), [])])
        (register ":" currentConns.init (ChatConn.mk 2) "bob").1).registry.users.get? "bob" = some (ChatConn.mk 2) :=
  ⟨by simp [isTerminator], rfl,
    (C13_session_deregisters_once ":" (ChatConn.mk 1)
      [(RecvResult.ok (WhatsUpMsg.mk Purpose.CONNECT "" "alice"), []),
       (RecvResult.ok (WhatsUpMsg.mk Purpose.LIST "" ""), ["alice", "bob"])]
      (RecvResult.error "EOF", []) [(RecvResult.ok (WhatsUpMsg.mk Purpose.LIST "" ""), [])]
      (register ":" currentConns.init (ChatConn.mk 2) "bob").1 (by simp [isTerminator]) rfl).1,
    (C13_session_deregisters_once ":" (ChatConn.mk 1)
      [(RecvResult.ok (WhatsUpMsg.mk Purpose.CONNECT "" "alice"), []),
       (RecvResult.ok (WhatsUpMsg.mk Purpose.LIST "" ""), ["alice", "bob"])]
      (RecvResult.error "EOF", []) [(RecvResult.ok (WhatsUpMsg.mk Purpose.LIST "" ""), [])]
      (register ":" currentConns.init (ChatConn.mk 2) "bob").1 (by simp [isTerminator]) rfl).2.1,
    (C13_session_deregisters_once ":" (ChatConn.mk 1)
      [(RecvResult.ok (WhatsUpMsg.mk Purpose.CONNECT "" "alice"), []),
       (RecvResult.ok (WhatsUpMsg.mk Purpose.LIST "" ""), ["alice", "bob"])]
      (RecvResult.error "EOF", []) [(RecvResult.ok (WhatsUpMsg.mk Purpose.LIST "" ""), [])]
      (register ":" currentConns.init (ChatConn.mk 2) "bob").1 (by simp [isTerminator]) rfl).2.2.2.2.2.2.2.2.1,
    by decide, by decide, by decide⟩

/-! ## getUserInput -/

theorem splitScan_length (sep : List Char) (l : List Char) :
    ∀ (skip : Nat) (cur : List Char),
      (splitScan sep skip cur l).length = countScan sep skip l + 1 := by
  induction l with
  | nil => intro skip cur; cases skip <;> rfl
  | cons c rest ih =>
    intro skip cur
    cases skip with
    | succ k => simpa [splitScan, countScan] using ih k cur
    | zero =>
      by_cases h : sep.isPrefixOf (c :: rest) = true
      · simp only [splitScan, countScan, h, if_true, List.length_cons, ih]
      · simp only [splitScan, countScan, h, if_false]
        exact ih 0 (c :: cur)

theorem string_data_ne_nil (s : String) (h : s ≠ "") : s.data ≠ [] := by
  intro hd
  apply h
  cases s
  simp_all

theorem stringsSplit_length (s sep : String) (hsep : sep ≠ "") :
    (stringsSplit s sep).length = stringsCount s sep + 1 := by
  simp [stringsSplit, stringsCount, string_data_ne_nil sep hsep, splitScan_length]

theorem intercalate_cons_of_ne_nil (sep x : List Char) (ys : List (List Char))
    (h : ys ≠ []) :
    List.intercalate sep (x :: ys) = x ++ sep ++ List.intercalate sep ys := by
  cases ys with
  | nil => exact absurd rfl h
  | cons y rest => simp [List.intercalate, List.intersperse]

theorem splitScan_intercalate (sep : List Char) (hsep : sep ≠ []) (l : List Char) :
    ∀ (skip : Nat) (cur : List Char), skip ≤ l.length →
      List.intercalate sep (splitScan sep skip cur l) = cur.reverse ++ l.drop skip := by
  induction l with
  | nil =>
    intro skip cur _
    cases skip <;> simp [splitScan, List.intercalate, List.intersperse]
  | cons c rest ih =>
    intro skip cur hskip
    cases skip with
    | succ k =>
      simpa [splitScan] using ih k cur (by simpa using hskip)
    | zero =>
      by_cases h : sep.isPrefixOf (c :: rest) = true
      · have hp : sep <+: c :: rest := List.isPrefixOf_iff_prefix.mp h
        have hlen : sep.length ≤ rest.length + 1 := by simpa using hp.length_le
        have hpos : 0 < sep.length := List.length_pos.mpr hsep
        have hne : splitScan sep (sep.length - 1) [] rest ≠ [] := by
          intro h0
          have := splitScan_length sep rest (sep.length - 1) []
          rw [h0] at this
          simp at this
        have hdrop : c :: rest = sep ++ rest.drop (sep.length - 1) := by
          obtain ⟨t, ht⟩ := hp
          have h1 : (c :: rest).drop sep.length = t := by
            rw [← ht, List.drop_left]
          have h2 : (c :: rest).drop sep.length = rest.drop (sep.length - 1) := by
            cases hs : sep.length with
            | zero => omega
            | succ m => simp
          rw [← h2, h1, ht]
        simp only [splitScan, h, if_true]
        rw [intercalate_cons_of_ne_nil _ _ _ hne, ih (sep.length - 1) [] (by omega)]
        simp only [List.reverse_nil, List.nil_append, List.drop_zero]
        rw [hdrop, List.append_assoc]
      · have hf : sep.isPrefixOf (c :: rest) = false := Bool.eq_false_iff.mpr h
        simp only [splitScan, hf, Bool.false_eq_true, if_false]
        rw [ih 0 (c :: cur) (Nat.zero_le _)]
        simp

theorem stringsJoin_stringsSplit (s sep : String) (hsep : sep ≠ "") :
    stringsJoin (stringsSplit s sep) sep = s := by
  have hd := string_data_ne_nil sep hsep
  unfold stringsJoin stringsSplit
  rw [if_neg hd, List.map_map]
  have hid : (List.map (String.data ∘ String.mk) (splitScan sep.data 0 [] s.data))
      = splitScan sep.data 0 [] s.data := by
    conv_rhs => rw [← List.map_id (splitScan sep.data 0 [] s.data)]
    exact List.map_congr_left (fun _ _ => rfl)
  rw [hid, splitScan_intercalate sep.data hd s.data 0 [] (Nat.zero_le _)]
  simp

theorem unicodeIsSpace_iff (c : Char) :
    unicodeIsSpace c = true ↔
      c.toNat ∈ [9, 10, 11, 12, 13, 32, 133, 160, 5760, 8232, 8233, 8239, 8287, 12288] ∨
        (8192 ≤ c.toNat ∧ c.toNat ≤ 8202) := by
  simp only [unicodeIsSpace, decide_eq_true_eq, List.mem_cons, List.mem_singleton,
    List.not_mem_nil, or_false]
  omega

theorem stringsTrimSpace_spec (t : String) :
    ∃ lead trail : List Char,
      t.data = lead ++ (stringsTrimSpace t).data ++ trail ∧
      (∀ c ∈ lead, unicodeIsSpace c = true) ∧ (∀ c ∈ trail, unicodeIsSpace c = true) ∧
      (∀ c, (stringsTrimSpace t).data.head? = some c → unicodeIsSpace c = false) ∧
      (∀ c, (stringsTrimSpace t).data.getLast? = some c → unicodeIsSpace c = false) := by
  have hd : (t.data.dropWhile unicodeIsSpace).reverse
      = ((t.data.dropWhile unicodeIsSpace).reverse.takeWhile unicodeIsSpace)
        ++ ((t.data.dropWhile unicodeIsSpace).reverse.dropWhile unicodeIsSpace) :=
    (List.takeWhile_append_dropWhile _ _).symm
  have hd' : t.data.dropWhile unicodeIsSpace
      = ((t.data.dropWhile unicodeIsSpace).reverse.dropWhile unicodeIsSpace).reverse
        ++ ((t.data.dropWhile unicodeIsSpace).reverse.takeWhile unicodeIsSpace).reverse := by
    rw [← List.reverse_append, ← hd, List.reverse_reverse]
  have htrim : (stringsTrimSpace t).data
      = ((t.data.dropWhile unicodeIsSpace).reverse.dropWhile unicodeIsSpace).reverse := rfl
  refine ⟨t.data.takeWhile unicodeIsSpace,
    ((t.data.dropWhile unicodeIsSpace).reverse.takeWhile unicodeIsSpace).reverse,
    ?_, ?_, ?_, ?_, ?_⟩
  · rw [htrim, List.append_assoc, ← hd', List.takeWhile_append_dropWhile]
  · intro c hc
    exact List.mem_takeWhile_imp hc
  · intro c hc
    exact List.mem_takeWhile_imp (List.mem_reverse.mp hc)
  · intro c hc
    have h1 : (t.data.dropWhile unicodeIsSpace).head? = some c := by
      rw [hd', List.head?_append, ← htrim, hc]
      rfl
    have h2 := List.head?_dropWhile_not unicodeIsSpace t.data
    rw [h1] at h2
    simpa using h2
  · intro c hc
    rw [htrim, List.getLast?_reverse] at hc
    have h2 := List.head?_dropWhile_not unicodeIsSpace
      (t.data.dropWhile unicodeIsSpace).reverse
    rw [hc] at h2
    simpa using h2

theorem readLines_line (content rest : List Char) (hnl : Char.ofNat 10 ∉ content) :
    ∀ cur : List Char,
      readLines cur (content ++ Char.ofNat 10 :: rest)
        = String.mk (cur.reverse ++ content ++ [Char.ofNat 10]) :: readLines [] rest := by
  induction content with
  | nil =>
    intro cur
    simp [readLines]
  | cons c tl ih =>
    intro cur
    have hc : c ≠ Char.ofNat 10 := fun h => hnl (h ▸ List.mem_cons_self _ _)
    have htl : Char.ofNat 10 ∉ tl := fun h => hnl (List.mem_cons_of_mem _ h)
    rw [List.cons_append, readLines, if_neg hc, ih htl]
    simp

theorem getUserInputLoop_message_line (MSG_DELIM : String) (line : String)
    (rest : List String)
    (hq : stringsTrimSpace line ≠ "quit") (hl : stringsTrimSpace line ≠ "list")
    (hs : stringsTrimSpace line ≠ "set-name") :
    getUserInputLoop MSG_DELIM (line :: rest)
      = if (stringsSplit (stringsTrimSpace line) MSG_DELIM).length ≠ 2 then
          ⟨(getUserInputLoop MSG_DELIM rest).queued,
            "Invalid input\n" :: (USAGE ++ "\n") :: (getUserInputLoop MSG_DELIM rest).printed⟩
        else
          ⟨{ Body := stringsTrimSpace
                ((stringsSplit (stringsTrimSpace line) MSG_DELIM).getD 1 ""),
             Username := stringsTrimSpace
                ((stringsSplit (stringsTrimSpace line) MSG_DELIM).getD 0 ""),
             Action := Purpose.MSG } :: (getUserInputLoop MSG_DELIM rest).queued,
            (getUserInputLoop MSG_DELIM rest).printed⟩ := by
  conv_lhs => unfold getUserInputLoop
  simp only [hq, hl, hs, if_false]

theorem getUserInput_first_line (MSG_DELIM : String) (content rest : String)
    (hnl : Char.ofNat 10 ∉ content.data) :
    getUserInput MSG_DELIM (content ++ "\n" ++ rest)
      = getUserInputLoop MSG_DELIM ((content ++ "\n") :: readLines [] rest.data) := by
  unfold getUserInput
  have h1 : (content ++ "\n" ++ rest).data = content.data ++ Char.ofNat 10 :: rest.data := by
    simp [String.data_append]
  have h2 : String.mk (([] : List Char).reverse ++ content.data ++ [Char.ofNat 10])
      = content ++ "\n" := by
    apply String.ext
    simp [String.data_append]
  rw [h1, readLines_line content.data rest.data hnl [], h2]

/-- C14 as stated fails on two kinds of input line.  An unterminated last line:
stdin is `bob: hi` with no line break; the line is no command and splits on
`:` into two parts, yet `ReadString` returns it with an error and nothing is
queued.  The name line after `set-name`: stdin is `set-name⏎bob⏎`; the line
`bob` is no command and does not split into two parts, yet a message is queued
for it, the CONNECT carrying it as `Username`. -/
theorem C14_counterexample_unterminated_and_name_line :
    (stringsTrimSpace "bob: hi" = "bob: hi" ∧
      (stringsSplit (stringsTrimSpace "bob: hi") ":").length = 2 ∧
      (getUserInput ":" "bob: hi").queued = []) ∧
    (stringsTrimSpace "bob\n" = "bob" ∧
      (stringsSplit (stringsTrimSpace "bob\n") ":").length = 1 ∧
      (getUserInput ":" "set-name\nbob\n").queued
        = [WhatsUpMsg.mk Purpose.CONNECT "" "bob"]) := by
  decide

/-- C14, amended: let stdin begin with a line that ends in a line break
(`content`, a line break, then `rest`), read at the top of the loop, whose
trimmed text is none of `quit`, `list`, `set-name`.  When splitting the trimmed
line on `MSG_DELIM` yields exactly two parts, exactly one message is queued for
the line, a MSG whose `Username` is the trimmed first part and whose `Body` is
the trimmed second part, and the loop goes on with `rest`; otherwise nothing is
queued for the line, the usage text is printed and the loop goes on with
`rest`.  For a non-empty delimiter the two parts are the text before and after
the delimiter, and two parts means the delimiter occurs exactly once.  Trimming
removes exactly the leading and trailing white space (the characters Go's
`unicode.IsSpace` accepts). -/
theorem C14_message_line_queues_send (MSG_DELIM : String) (content rest : String)
    (hnl : Char.ofNat 10 ∉ content.data)
    (hq : stringsTrimSpace (content ++ "\n") ≠ "quit")
    (hl : stringsTrimSpace (content ++ "\n") ≠ "list")
    (hs : stringsTrimSpace (content ++ "\n") ≠ "set-name") :
    ((stringsSplit (stringsTrimSpace (content ++ "\n")) MSG_DELIM).length = 2 →
      ∃ first second,
        stringsSplit (stringsTrimSpace (content ++ "\n")) MSG_DELIM = [first, second] ∧
        (MSG_DELIM ≠ "" →
          stringsTrimSpace (content ++ "\n") = first ++ MSG_DELIM ++ second) ∧
        (getUserInput MSG_DELIM (content ++ "\n" ++ rest)).queued
          = WhatsUpMsg.mk Purpose.MSG (stringsTrimSpace second) (stringsTrimSpace first)
              :: (getUserInput MSG_DELIM rest).queued ∧
        (getUserInput MSG_DELIM (content ++ "\n" ++ rest)).printed
          = (getUserInput MSG_DELIM rest).printed) ∧
    ((stringsSplit (stringsTrimSpace (content ++ "\n")) MSG_DELIM).length ≠ 2 →
      (getUserInput MSG_DELIM (content ++ "\n" ++ rest)).queued
        = (getUserInput MSG_DELIM rest).queued ∧
      (getUserInput MSG_DELIM (content ++ "\n" ++ rest)).printed
        = "Invalid input\n" :: (USAGE ++ "\n") :: (getUserInput MSG_DELIM rest).printed) ∧
    (MSG_DELIM ≠ "" →
      ((stringsSplit (stringsTrimSpace (content ++ "\n")) MSG_DELIM).length = 2
        ↔ stringsCount (stringsTrimSpace (content ++ "\n")) MSG_DELIM = 1)) ∧
    (∀ t : String, ∃ lead trail : List Char,
      t.data = lead ++ (stringsTrimSpace t).data ++ trail ∧
      (∀ c ∈ lead, unicodeIsSpace c = true) ∧ (∀ c ∈ trail, unicodeIsSpace c = true) ∧
      (∀ c, (stringsTrimSpace t).data.head? = some c → unicodeIsSpace c = false) ∧
      (∀ c, (stringsTrimSpace t).data.getLast? = some c → unicodeIsSpace c = false)) ∧
    (∀ c : Char, unicodeIsSpace c = true ↔
      c.toNat ∈ [9, 10, 11, 12, 13, 32, 133, 160, 5760, 8232, 8233, 8239, 8287, 12288] ∨
        (8192 ≤ c.toNat ∧ c.toNat ≤ 8202)) := by
  have hrun := getUserInput_first_line MSG_DELIM content rest hnl
  have hloop := getUserInputLoop_message_line MSG_DELIM (content ++ "\n")
    (readLines [] rest.data) hq hl hs
  refine ⟨fun hlen => ?_, fun hlen => ?_, fun hne => ?_, stringsTrimSpace_spec,
    unicodeIsSpace_iff⟩
  · match hsplit : stringsSplit (stringsTrimSpace (content ++ "\n")) MSG_DELIM, hlen with
    | [first, second], _ =>
      refine ⟨first, second, rfl, fun hne => ?_, ?_, ?_⟩
      · have hj := stringsJoin_stringsSplit (stringsTrimSpace (content ++ "\n")) MSG_DELIM hne
        rw [hsplit] at hj
        rw [← hj]
        apply String.ext
        simp [stringsJoin, List.intercalate, List.intersperse, String.data_append]
      · rw [hrun, hloop, hsplit]
        rfl
      · rw [hrun, hloop, hsplit]
        rfl
  · rw [hrun, hloop, if_pos hlen]
    exact ⟨rfl, rfl⟩
  · rw [stringsSplit_length _ _ hne]
    omega

/-- C14 amended, at a concrete input: stdin is the line `bob: hi` followed by
the line `quit`, with `:` as delimiter. -/
theorem C14_message_line_queues_send_witness :
    Char.ofNat 10 ∉ "bob: hi".data ∧
    stringsTrimSpace ("bob: hi" ++ "\n") ≠ "quit" ∧
    stringsTrimSpace ("bob: hi" ++ "\n") ≠ "list" ∧
    stringsTrimSpace ("bob: hi" ++ "\n") ≠ "set-name" ∧
    (stringsSplit (stringsTrimSpace ("bob: hi" ++ "\n")) ":").length = 2 ∧
    (getUserInput ":" ("bob: hi" ++ "\n" ++ "quit\n")).queued
      = [WhatsUpMsg.mk Purpose.MSG "hi" "bob", WhatsUpMsg.mk Purpose.DISCONNECT "" ""] ∧
    ∃ first second, stringsSplit (stringsTrimSpace ("bob: hi" ++ "\n")) ":" = [first, second] ∧
      (":" ≠ "" → stringsTrimSpace ("bob: hi" ++ "\n") = first ++ ":" ++ second) ∧
      (getUserInput ":" ("bob: hi" ++ "\n" ++ "quit\n")).queued
        = WhatsUpMsg.mk Purpose.MSG (stringsTrimSpace second) (stringsTrimSpace first)
            :: (getUserInput ":" "quit\n").queued ∧
      (getUserInput ":" ("bob: hi" ++ "\n" ++ "quit\n")).printed
        = (getUserInput ":" "quit\n").printed :=
  ⟨by decide, by decide, by decide, by decide, by decide, by decide,
    (C14_message_line_queues_send ":" "bob: hi" "quit\n" (by decide) (by decide) (by decide)
      (by decide)).1 (by decide)⟩

/-! ## Two registrations of one name, in either order -/

theorem register_same_name_second_refused (MSG_DELIM : String) (s : currentConns)
    (c₁ c₂ : ChatConn) (n : String) (hne : c₂ ≠ c₁)
    (h₁ : s.conns.contains c₁ = false) (h₂ : s.conns.contains c₂ = false)
    (hvalid : usernameValid MSG_DELIM n = true) (hfree : s.users.contains n = false) :
    (register MSG_DELIM s c₁ n).2 = [] ∧
    register MSG_DELIM (register MSG_DELIM s c₁ n).1 c₂ n
      = ((register MSG_DELIM s c₁ n).1,
         [(c₂, WhatsUpMsg.mk Purpose.ERROR "Username already taken" "SERVER")]) := by
  have hr : register MSG_DELIM s c₁ n
      = ({ users := s.users.set n c₁, conns := s.conns.set c₁ n }, []) := by
    simp [register, h₁, hvalid, hfree]
  rw [hr]
  refine ⟨rfl, ?_⟩
  have hc : (s.conns.set c₁ n).contains c₂ = false := by
    rw [GoMap.contains_eq_false_iff, GoMap.get?_set_ne _ _ _ _ hne]
    exact (GoMap.contains_eq_false_iff _ _).mp h₂
  have hu : (s.users.set n c₁).contains n = true := by
    simp [GoMap.contains, GoMap.get?_set_self]
  simp [register, hc, hvalid, hu, serverErrorMsg]

/-! ## The invariant when the empty name is never registered -/

theorem register_fst_of_sent_ne_nil (MSG_DELIM : String) (s : currentConns) (c : ChatConn)
    (n : String) (h : (register MSG_DELIM s c n).2 ≠ []) : (register MSG_DELIM s c n).1 = s := by
  unfold register at h ⊢
  split_ifs at h ⊢ <;> first | rfl | exact absurd rfl h

theorem inverses_register (MSG_DELIM : String) (s : currentConns) (c : ChatConn) (n : String)
    (hinv : Inverses s) : Inverses (register MSG_DELIM s c n).1 := by
  unfold register
  split_ifs with h1 h2 h3
  · exact hinv
  · exact hinv
  · exact hinv
  · have hc : s.conns.get? c = none :=
      (GoMap.contains_eq_false_iff _ _).mp (by simpa using h1)
    have hn : s.users.get? n = none :=
      (GoMap.contains_eq_false_iff _ _).mp (by simpa using h3)
    intro n' c'
    show (s.users.set n c).get? n' = some c' ↔ (s.conns.set c n).get? c' = some n'
    by_cases hnn : n' = n
    · subst hnn
      by_cases hcc : c' = c
      · subst hcc
        simp [GoMap.get?_set_self]
      · rw [GoMap.get?_set_self, GoMap.get?_set_ne _ _ _ _ hcc, ← hinv n' c', hn]
        constructor
        · intro h
          exact absurd (Option.some.inj h).symm hcc
        · intro h
          cases h
    · rw [GoMap.get?_set_ne _ _ _ _ hnn]
      by_cases hcc : c' = c
      · subst hcc
        rw [GoMap.get?_set_self, hinv n' c', hc]
        constructor
        · intro h
          cases h
        · intro h
          exact absurd (Option.some.inj h).symm hnn
      · rw [GoMap.get?_set_ne _ _ _ _ hcc]
        exact hinv n' c'

theorem deregister_of_unregistered (s : currentConns) (c : ChatConn)
    (hempty : s.users.contains "" = false) (hc : s.conns.contains c = false) :
    deregister s c = (s, []) := by
  have h1 : s.conns.get? c = none := (GoMap.contains_eq_false_iff _ _).mp hc
  have h2 : s.users.get? "" = none := (GoMap.contains_eq_false_iff _ _).mp hempty
  unfold deregister
  simp only [h1, Option.getD_none]
  rw [GoMap.delete_of_get?_none _ _ h1, GoMap.delete_of_get?_none _ _ h2]

theorem inverses_deregister (s : currentConns) (c : ChatConn) (hinv : Inverses s)
    (hempty : s.users.contains "" = false) : Inverses (deregister s c).1 := by
  cases hc : s.conns.get? c with
  | none =>
    rw [deregister_of_unregistered s c hempty ((GoMap.contains_eq_false_iff _ _).mpr hc)]
    exact hinv
  | some n =>
    have hu : s.users.get? n = some c := (hinv n c).mpr hc
    intro n' c'
    show (s.users.delete ((s.conns.get? c).getD "")).get? n' = some c'
      ↔ (s.conns.delete c).get? c' = some n'
    rw [hc, Option.getD_some]
    by_cases hnn : n' = n
    · subst hnn
      rw [GoMap.get?_delete_self]
      by_cases hcc : c' = c
      · subst hcc
        rw [GoMap.get?_delete_self]
        constructor <;> intro h <;> cases h
      · rw [GoMap.get?_delete_ne _ _ _ hcc, ← hinv n' c', hu]
        constructor
        · intro h
          cases h
        · intro h
          exact absurd (Option.some.inj h).symm hcc
    · rw [GoMap.get?_delete_ne _ _ _ hnn]
      by_cases hcc : c' = c
      · subst hcc
        rw [GoMap.get?_delete_self, hinv n' c', hc]
        constructor
        · intro h
          exact absurd (Option.some.inj h).symm hnn
        · intro h
          cases h
      · rw [GoMap.get?_delete_ne _ _ _ hcc]
        exact hinv n' c'

theorem users_empty_register (MSG_DELIM : String) (s : currentConns) (c : ChatConn)
    (n : String) (hn : n ≠ "") (hempty : s.users.contains "" = false) :
    (register MSG_DELIM s c n).1.users.contains "" = false := by
  unfold register
  split_ifs
  · exact hempty
  · exact hempty
  · exact hempty
  · rw [GoMap.contains_eq_false_iff] at hempty ⊢
    show (s.users.set n c).get? "" = none
    rw [GoMap.get?_set_ne _ _ _ _ (fun h => hn h.symm)]
    exact hempty

theorem users_empty_deregister (s : currentConns) (c : ChatConn)
    (hempty : s.users.contains "" = false) :
    (deregister s c).1.users.contains "" = false := by
  rw [GoMap.contains_eq_false_iff] at hempty ⊢
  show (s.users.delete ((s.conns.get? c).getD "")).get? "" = none
  by_cases h : "" = (s.conns.get? c).getD ""
  · rw [← h, GoMap.get?_delete_self]
  · rw [GoMap.get?_delete_ne _ _ _ h]
    exact hempty

theorem sendUserMsg_fst (s : currentConns) (msg : WhatsUpMsg) (c : ChatConn) :
    (sendUserMsg s msg c).1 = s := by
  unfold sendUserMsg
  cases s.users.get? msg.Username <;> rfl

theorem runCalls_cons (MSG_DELIM : String) (s : currentConns) (call : RegistryCall)
    (rest : List RegistryCall) :
    runCalls MSG_DELIM s (call :: rest)
      = runCalls MSG_DELIM (applyCall MSG_DELIM s call).1 rest := rfl

theorem neverRegistersEmptyName_tail (MSG_DELIM : String) (s : currentConns)
    (call : RegistryCall) (rest : List RegistryCall)
    (h : NeverRegistersEmptyName MSG_DELIM s (call :: rest)) :
    NeverRegistersEmptyName MSG_DELIM (applyCall MSG_DELIM s call).1 rest := by
  intro pre post c hrest
  have := h (call :: pre) post c (by rw [hrest]; rfl)
  rwa [runCalls_cons] at this

theorem invariant_runCalls (MSG_DELIM : String) (calls : List RegistryCall) (s : currentConns)
    (hinv : Inverses s) (hempty : s.users.contains "" = false)
    (h : NeverRegistersEmptyName MSG_DELIM s calls) :
    Inverses (runCalls MSG_DELIM s calls) ∧
    (runCalls MSG_DELIM s calls).users.contains "" = false := by
  induction calls generalizing s with
  | nil => exact ⟨hinv, hempty⟩
  | cons call rest ih =>
    rw [runCalls_cons]
    have htail := neverRegistersEmptyName_tail MSG_DELIM s call rest h
    cases call with
    | register c n =>
      refine ih _ (inverses_register MSG_DELIM s c n hinv) ?_ htail
      by_cases hn : n = ""
      · subst hn
        have hfail := h [] rest c rfl
        show (register MSG_DELIM s c "").1.users.contains "" = false
        rw [register_fst_of_sent_ne_nil MSG_DELIM s c "" hfail]
        exact hempty
      · exact users_empty_register MSG_DELIM s c n hn hempty
    | deregister c =>
      exact ih _ (inverses_deregister s c hinv hempty) (users_empty_deregister s c hempty) htail
    | sendUserMsg msg c =>
      have hs : (applyCall MSG_DELIM s (RegistryCall.sendUserMsg msg c)).1 = s :=
        sendUserMsg_fst s msg c
      rw [hs] at htail ⊢
      exact ih s hinv hempty htail
    | listUsers order c =>
      exact ih s hinv hempty htail

theorem inverses_init : Inverses currentConns.init := by
  intro n c
  constructor <;> intro h <;> cases h

/-- C16: when the run never registers the empty name, the registry reached
from the empty registry by the calls (register, deregister, sendUserMsg,
listUsers, in any order and from any connections) has `users` and `conns`
exact inverses, and `deregister` of a connection that is not a key of `conns`
sends nothing and leaves the registry exactly as it was. -/
theorem C16_inverses_without_empty_name (MSG_DELIM : String) (calls : List RegistryCall)
    (h : NeverRegistersEmptyName MSG_DELIM currentConns.init calls) :
    Inverses (runCalls MSG_DELIM currentConns.init calls) ∧
    ∀ c : ChatConn, (runCalls MSG_DELIM currentConns.init calls).conns.contains c = false →
      deregister (runCalls MSG_DELIM currentConns.init calls) c
        = (runCalls MSG_DELIM currentConns.init calls, []) := by
  obtain ⟨hinv, hempty⟩ :=
    invariant_runCalls MSG_DELIM calls currentConns.init inverses_init rfl h
  exact ⟨hinv, fun c hc => deregister_of_unregistered _ c hempty hc⟩

/-- C16 at a concrete input: `alice` registers, a connection that never
registered is deregistered, a message and a list request are served, `bob`
registers. -/
theorem C16_inverses_without_empty_name_witness :
    NeverRegistersEmptyName ":" currentConns.init
      [RegistryCall.register (ChatConn.mk 1) "alice",
       RegistryCall.deregister (ChatConn.mk 2),
       RegistryCall.sendUserMsg (WhatsUpMsg.mk Purpose.MSG "hi" "alice") (ChatConn.mk 2),
       RegistryCall.listUsers ["alice"] (ChatConn.mk 2),
       RegistryCall.register (ChatConn.mk 3) "bob"] ∧
    Inverses (runCalls ":" currentConns.init
      [RegistryCall.register (ChatConn.mk 1) "alice",
       RegistryCall.deregister (ChatConn.mk 2),
       RegistryCall.sendUserMsg (WhatsUpMsg.mk Purpose.MSG "hi" "alice") (ChatConn.mk 2),
       RegistryCall.listUsers ["alice"] (ChatConn.mk 2),
       RegistryCall.register (ChatConn.mk 3) "bob"]) :=
  have hyp : NeverRegistersEmptyName ":" currentConns.init
      [RegistryCall.register (ChatConn.mk 1) "alice",
       RegistryCall.deregister (ChatConn.mk 2),
       RegistryCall.sendUserMsg (WhatsUpMsg.mk Purpose.MSG "hi" "alice") (ChatConn.mk 2),
       RegistryCall.listUsers ["alice"] (ChatConn.mk 2),
       RegistryCall.register (ChatConn.mk 3) "bob"] := by
    intro pre post c h
    have hm : RegistryCall.register c "" ∈ pre ++ RegistryCall.register c "" :: post := by
      simp
    rw [← h] at hm
    simp at hm
  ⟨hyp, (C16_inverses_without_empty_name ":" _ hyp).1⟩

/-! ## The two dispatchers -/

/-- C17: for a message whose kind is neither CONNECT nor DISCONNECT (MSG, LIST,
ERROR or unrecognized), `handleMsg` returns the registry it was given. -/
theorem C17_only_connect_disconnect_change_registry (MSG_DELIM : String)
    (order : List String) (msg : WhatsUpMsg) (src : ChatConn) (s : currentConns)
    (hc : msg.Action ≠ Purpose.CONNECT) (hd : msg.Action ≠ Purpose.DISCONNECT) :
    (handleMsg MSG_DELIM order msg src s).1 = s := by
  cases h : msg.Action with
  | CONNECT => exact absurd h hc
  | DISCONNECT => exact absurd h hd
  | MSG =>
    simp only [handleMsg, h, sendUserMsg]
    cases s.users.get? msg.Username <;> rfl
  | LIST => simp only [handleMsg, h, listUsers]
  | ERROR => simp only [handleMsg, h]
  | other code => simp only [handleMsg, h]

/-- C17 at a concrete input: a MSG naming `bob` from `alice`, both
registered. -/
theorem C17_only_connect_disconnect_change_registry_witness :
    (WhatsUpMsg.mk Purpose.MSG "hi" "bob").Action ≠ Purpose.CONNECT ∧
    (WhatsUpMsg.mk Purpose.MSG "hi" "bob").Action ≠ Purpose.DISCONNECT ∧
    (handleMsg ":" [] (WhatsUpMsg.mk Purpose.MSG "hi" "bob") (ChatConn.mk 1)
        (runCalls ":" currentConns.init
          [RegistryCall.register (ChatConn.mk 1) "alice",
           RegistryCall.register (ChatConn.mk 2) "bob"])).1
      = runCalls ":" currentConns.init
          [RegistryCall.register (ChatConn.mk 1) "alice",
           RegistryCall.register (ChatConn.mk 2) "bob"] :=
  ⟨by decide, by decide,
    C17_only_connect_disconnect_change_registry ":" [] (WhatsUpMsg.mk Purpose.MSG "hi" "bob")
      (ChatConn.mk 1)
      (runCalls ":" currentConns.init
        [RegistryCall.register (ChatConn.mk 1) "alice",
         RegistryCall.register (ChatConn.mk 2) "bob"])
      (by decide) (by decide)⟩

/-- C18: on a message of kind CONNECT, MSG, LIST or DISCONNECT, one pass through
the `switch` of `handleConnection` yields the same registry, the same sent
messages and the same return decision as `handleMsg`. -/
theorem C18_switch_agrees_with_handleMsg (MSG_DELIM : String) (order : List String)
    (msg : WhatsUpMsg) (conn : ChatConn) (s : currentConns)
    (h : msg.Action = Purpose.CONNECT ∨ msg.Action = Purpose.MSG ∨
      msg.Action = Purpose.LIST ∨ msg.Action = Purpose.DISCONNECT) :
    ((handleConnectionSwitch MSG_DELIM order msg conn s).registry,
      (handleConnectionSwitch MSG_DELIM order msg conn s).sent,
      (handleConnectionSwitch MSG_DELIM order msg conn s).returned)
      = handleMsg MSG_DELIM order msg conn s := by
  rcases h with h | h | h | h <;> simp only [handleConnectionSwitch, handleMsg, h]

/-- C18 at a concrete input: a LIST on a registry holding `alice`. -/
theorem C18_switch_agrees_with_handleMsg_witness :
    ((WhatsUpMsg.mk Purpose.LIST "" "").Action = Purpose.CONNECT ∨
      (WhatsUpMsg.mk Purpose.LIST "" "").Action = Purpose.MSG ∨
      (WhatsUpMsg.mk Purpose.LIST "" "").Action = Purpose.LIST ∨
      (WhatsUpMsg.mk Purpose.LIST "" "").Action = Purpose.DISCONNECT) ∧
    ((handleConnectionSwitch ":" ["alice"] (WhatsUpMsg.mk Purpose.LIST "" "") (ChatConn.mk 2)
        (register ":" currentConns.init (ChatConn.mk 1) "alice").1).registry,
      (handleConnectionSwitch ":" ["alice"] (WhatsUpMsg.mk Purpose.LIST "" "") (ChatConn.mk 2)
        (register ":" currentConns.init (ChatConn.mk 1) "alice").1).sent,
      (handleConnectionSwitch ":" ["alice"] (WhatsUpMsg.mk Purpose.LIST "" "") (ChatConn.mk 2)
        (register ":" currentConns.init (ChatConn.mk 1) "alice").1).returned)
      = handleMsg ":" ["alice"] (WhatsUpMsg.mk Purpose.LIST "" "") (ChatConn.mk 2)
          (register ":" currentConns.init (ChatConn.mk 1) "alice").1 :=
  ⟨Or.inr (Or.inr (Or.inl rfl)),
    C18_switch_agrees_with_handleMsg ":" ["alice"] (WhatsUpMsg.mk Purpose.LIST "" "")
      (ChatConn.mk 2) (register ":" currentConns.init (ChatConn.mk 1) "alice").1
      (Or.inr (Or.inr (Or.inl rfl)))⟩

/-- C19: when `r` is registered to `B` and the source `A` is not a key of
`conns`, a MSG from `A` naming `r` is forwarded to `B` as exactly one MSG with
the same body and the empty string as `Username`; the registry is unchanged. -/
theorem C19_unregistered_sender_forwarded (MSG_DELIM : String) (order : List String)
    (s : currentConns) (A B : ChatConn) (r b : String)
    (hA : s.conns.contains A = false) (hB : s.users.get? r = some B) :
    sendUserMsg s (WhatsUpMsg.mk Purpose.MSG b r) A
      = (s, [(B, WhatsUpMsg.mk Purpose.MSG b "")]) ∧
    handleMsg MSG_DELIM order (WhatsUpMsg.mk Purpose.MSG b r) A s
      = (s, [(B, WhatsUpMsg.mk Purpose.MSG b "")], false) := by
  have hnone : s.conns.get? A = none := (GoMap.contains_eq_false_iff _ _).mp hA
  have h : sendUserMsg s (WhatsUpMsg.mk Purpose.MSG b r) A
      = (s, [(B, WhatsUpMsg.mk Purpose.MSG b "")]) := by
    simp [sendUserMsg, hnone, hB]
  refine ⟨h, ?_⟩
  simp only [handleMsg, h]

/-- C19 at a concrete input: `bob` is registered to connection 2, connection 1
never registered and sends `hi` naming `bob`. -/
theorem C19_unregistered_sender_forwarded_witness :
    (register ":" currentConns.init (ChatConn.mk 2) "bob").1.conns.contains (ChatConn.mk 1)
      = false ∧
    (register ":" currentConns.init (ChatConn.mk 2) "bob").1.users.get? "bob"
      = some (ChatConn.mk 2) ∧
    handleMsg ":" ["bob"] (WhatsUpMsg.mk Purpose.MSG "hi" "bob") (ChatConn.mk 1)
        (register ":" currentConns.init (ChatConn.mk 2) "bob").1
      = ((register ":" currentConns.init (ChatConn.mk 2) "bob").1,
         [(ChatConn.mk 2, WhatsUpMsg.mk Purpose.MSG "hi" "")], false) :=
  ⟨by decide, by decide,
    (C19_unregistered_sender_forwarded ":" ["bob"]
      (register ":" currentConns.init (ChatConn.mk 2) "bob").1 (ChatConn.mk 1) (ChatConn.mk 2)
      "bob" "hi" (by decide) (by decide)).2⟩

end Whatsup
